import Mathlib

/-!
Verification of the wechatpay-go v3 client core against its specification.

The Go sources are embedded shallowly:

* pure string manipulation (`net/url.Parse`, `strconv` parsing, the
  canonicalization in `sign.RequestSignature.Marshal`, the CSV bill decoder)
  is translated into executable Lean functions over `String` / `List Char`;
* machine integers (`int64`) become `Int` with explicit 64-bit range checks
  where the source checks them (`strconv.ParseInt`);
* Go `float64` fields that are produced by `strconv.ParseFloat` on plain
  decimal bill fields are modelled as exact rationals (`Rat`), since every
  claim about them compares values parsed from short decimal literals;
* the cryptographic primitives (RSA-PKCS1v1.5/SHA-256 signing and verifying,
  AES-256-GCM decryption, X.509 parsing) and the HTTP transport are opaque
  effects; they are abstracted as function parameters collected in an
  environment record `Env`, and the client pipeline `client.Do` /
  `client.VerifySignature` is modelled as explicit state passing over the
  certificate cache together with an event trace that records the order of
  the observable steps (send, install-certificate, refresh, verify).

Fallible Go code returns `Except` / `Option` values.
-/

set_option maxRecDepth 40000

/-! ## Basic character/list helpers (models of `strings` / `bufio` splitting) -/

/-- Split a character list at every occurrence of `sep`; models Go
`strings.Split(s, sep)` for a one-character separator (`""` gives `[""]`). -/
def splitChar (sep : Char) : List Char → List (List Char)
  | [] => [[]]
  | c :: rest =>
    let r := splitChar sep rest
    if c = sep then [] :: r
    else
      match r with
      | h :: t => (c :: h) :: t
      | [] => [[c]]

/-- Split at the first occurrence of `sep`; models Go `strings.Cut`
(`none` when the separator does not occur). -/
def cutFirst (sep : Char) : List Char → Option (List Char × List Char)
  | [] => none
  | c :: rest =>
    if c = sep then some ([], rest)
    else
      match cutFirst sep rest with
      | some p => some (c :: p.1, p.2)
      | none => none

/-- Boolean prefix test on character lists (Go `strings.HasPrefix`). -/
def isPre : List Char → List Char → Bool
  | [], _ => true
  | _ :: _, [] => false
  | a :: as, b :: bs => a = b && isPre as bs

/-- Index of the last occurrence of `c` (Go `strings.LastIndex` for one char). -/
def lastIndexOf (c : Char) : List Char → Option Nat
  | [] => none
  | x :: rest =>
    match lastIndexOf c rest with
    | some i => some (i + 1)
    | none => if x = c then some 0 else none

/-- Value of a hexadecimal digit character. -/
def hexDigitVal (c : Char) : Option Nat :=
  if c.isDigit then some (c.toNat - 48)
  else if 'a' ≤ c ∧ c ≤ 'f' then some (c.toNat - 87)
  else if 'A' ≤ c ∧ c ≤ 'F' then some (c.toNat - 55)
  else none

/-! ## Model of `net/url.Parse` (the subset exercised by this client)

`parseUrl` models Go's `net/url.Parse` on the URL shapes this client builds
and checks: the control-character rejection, scheme extraction, the
fragment and query splits (including the trailing-`?` `ForceQuery` rule),
the opaque branch for non-rooted scheme-ful URLs, authority/host splitting
with the digits-only port rule, and percent-unescaping of path and
fragment with hex validation.  Simplifications relative to `net/url`:
userinfo and bracketed IPv6 hosts are accepted without their extra
character validation, and percent-decoded bytes are represented as single
characters of the byte's code point. -/

structure URL where
  Scheme : String
  Opaque : String
  Host : String
  Path : String
  RawQuery : String
  ForceQuery : Bool
  Fragment : String
deriving DecidableEq

/-- Control byte as rejected by `net/url` (below space, or DEL). -/
def ctlChar (c : Char) : Bool := c.val < 0x20 || c.val == 0x7f

def containsCtl (l : List Char) : Bool := l.any ctlChar

/-- Model of `net/url.getScheme`: `none` is the "missing protocol scheme"
error; `some ([], orig)` means no scheme. -/
def getSchemeAux (orig : List Char) : List Char → List Char → Option (List Char × List Char)
  | [], _ => some ([], orig)
  | c :: rest, acc =>
    if c.isAlpha then getSchemeAux orig rest (c :: acc)
    else if c.isDigit || c = '+' || c = '-' || c = '.' then
      if acc = [] then some ([], orig) else getSchemeAux orig rest (c :: acc)
    else if c = ':' then
      if acc = [] then none else some (acc.reverse, rest)
    else some ([], orig)

/-- Percent-unescaping with hex validation (Go `url.unescape` in path mode). -/
def unescapeList : List Char → Option (List Char)
  | [] => some []
  | '%' :: a :: b :: rest =>
    match hexDigitVal a, hexDigitVal b with
    | some x, some y =>
      match unescapeList rest with
      | some l => some (Char.ofNat (16 * x + y) :: l)
      | none => none
    | _, _ => none
  | '%' :: _ => none
  | c :: rest =>
    match unescapeList rest with
    | some l => some (c :: l)
    | none => none

/-- Go `url.validOptionalPort`: empty, or a colon followed by digits only. -/
def validOptionalPort (l : List Char) : Bool :=
  match l with
  | [] => true
  | c :: rest => c = ':' && rest.all (fun d => d.isDigit)

/-- Model of `url.parseHost`: port (after the last colon / closing bracket)
must be digits-only, percent escapes must be valid hex. -/
def parseHostModel (host : List Char) : Option (List Char) :=
  if host.head? = some '[' then
    match lastIndexOf ']' host with
    | none => none
    | some i =>
      if validOptionalPort (host.drop (i + 1)) then unescapeList host else none
  else
    match lastIndexOf ':' host with
    | none => unescapeList host
    | some i =>
      if validOptionalPort (host.drop i) then unescapeList host else none

/-- Model of `url.parseAuthority`: userinfo before the last `@` is dropped,
the remainder is parsed as a host. -/
def parseAuthorityModel (auth : List Char) : Option (List Char) :=
  match lastIndexOf '@' auth with
  | none => parseHostModel auth
  | some i => parseHostModel (auth.drop (i + 1))

/-- Model of `net/url.parse` on the pre-fragment part of the URL. -/
def parseNoFrag (l : List Char) : Option URL :=
  if containsCtl l then none
  else
    match getSchemeAux l l [] with
    | none => none
    | some (schemeL, rest0) =>
      let scheme := String.mk (schemeL.map Char.toLower)
      let q :=
        if rest0.getLast? = some '?' ∧ cutFirst '?' rest0.dropLast = none then
          (rest0.dropLast, ([] : List Char), true)
        else
          match cutFirst '?' rest0 with
          | some p => (p.1, p.2, false)
          | none => (rest0, [], false)
      let rest1 := q.1
      let rawQuery := q.2.1
      let forceQuery := q.2.2
      if rest1.head? ≠ some '/' then
        if scheme ≠ "" then
          some { Scheme := scheme, Opaque := String.mk rest1, Host := "",
                 Path := "", RawQuery := String.mk rawQuery,
                 ForceQuery := forceQuery, Fragment := "" }
        else
          let seg := match cutFirst '/' rest1 with
            | some p => p.1
            | none => rest1
          if seg.contains ':' then none
          else
            match unescapeList rest1 with
            | none => none
            | some path =>
              some { Scheme := scheme, Opaque := "", Host := "",
                     Path := String.mk path, RawQuery := String.mk rawQuery,
                     ForceQuery := forceQuery, Fragment := "" }
      else
        if (scheme ≠ "" ∨ ¬ (isPre "///".data rest1 = true)) ∧ isPre "//".data rest1 = true then
          let afterSlashes := rest1.drop 2
          let a := match cutFirst '/' afterSlashes with
            | some p => (p.1, '/' :: p.2)
            | none => (afterSlashes, [])
          match parseAuthorityModel a.1 with
          | none => none
          | some host =>
            match unescapeList a.2 with
            | none => none
            | some path =>
              some { Scheme := scheme, Opaque := "", Host := String.mk host,
                     Path := String.mk path, RawQuery := String.mk rawQuery,
                     ForceQuery := forceQuery, Fragment := "" }
        else
          match unescapeList rest1 with
          | none => none
          | some path =>
            some { Scheme := scheme, Opaque := "", Host := "",
                   Path := String.mk path, RawQuery := String.mk rawQuery,
                   ForceQuery := forceQuery, Fragment := "" }

/-- Model of `net/url.Parse`: split the fragment at the first `#`,
parse the rest, then unescape the fragment. -/
def parseUrl (s : String) : Option URL :=
  match cutFirst '#' s.data with
  | none => parseNoFrag s.data
  | some p =>
    match parseNoFrag p.1, unescapeList p.2 with
    | some u, some frag => some { u with Fragment := String.mk frag }
    | _, _ => none

/-! ## Error values surfaced by the client (spec section 7 taxonomy) -/

inductive ErrM
  /-- url.Parse failed (*bad-url*). -/
  | badUrl
  /-- RSA signing failed. -/
  | signFailure
  /-- network/transport failure. -/
  | transportErr
  /-- platform error response (`Error{Status, Code, Message}` from error.go). -/
  | httpError (status : Nat) (code : String) (message : String)
  /-- JSON decoding failed. -/
  | jsonErr
  /-- `strconv.ParseInt` failed on the Wechatpay-Timestamp header (*bad-header*). -/
  | badHeader
  /-- "certificate not found": no cached key for the response serial. -/
  | certNotFound
  /-- RSA verification failed (*bad-signature*). -/
  | badSignature
deriving DecidableEq

/-! ## Request canonicalization (sign package, part_005) -/

/-- `sign.RequestSignature`: method, absolute url, unix timestamp, nonce,
raw body bytes (modelled as a string of bytes). -/
structure RequestSignature where
  Method : String
  Url : String
  Timestamp : Int
  Nonce : String
  Body : String
deriving DecidableEq

/-- `sign.RequestSignature.Marshal`: parse the url, take path
(plus `?`+raw query when the raw query is nonempty), and join
method/uri/timestamp/nonce/body with LF, each line LF-terminated. -/
def RequestSignature.Marshal (r : RequestSignature) : Except ErrM String :=
  match parseUrl r.Url with
  | none => .error .badUrl
  | some u =>
    let uri := if u.RawQuery ≠ "" then u.Path ++ "?" ++ u.RawQuery else u.Path
    .ok (r.Method ++ "\n" ++ uri ++ "\n" ++ toString r.Timestamp ++ "\n" ++
         r.Nonce ++ "\n" ++ (if r.Body.length > 0 then r.Body else "") ++ "\n")

example : RequestSignature.Marshal
    { Method := "GET", Url := "https://host/v3/certificates",
      Timestamp := 1611368330, Nonce := "AF1404CC2980FB414C99C0B98883BD42",
      Body := "" } =
    .ok "GET\n/v3/certificates\n1611368330\nAF1404CC2980FB414C99C0B98883BD42\n\n" := rfl

example : RequestSignature.Marshal
    { Method := "GET", Url := "https:\n//host/v3/certificates",
      Timestamp := 1611368330, Nonce := "N", Body := "" } = .error .badUrl := rfl

example : RequestSignature.Marshal
    { Method := "GET", Url := "https://host/v3/bill?bill_date=2021-01-01&bill_type=ALL",
      Timestamp := 5, Nonce := "N", Body := "" } =
    .ok "GET\n/v3/bill?bill_date=2021-01-01&bill_type=ALL\n5\nN\n\n" := rfl

/-! ## Signing (sign package `GenerateSignature`, config.go defaults)

`SignatureSHA256WithRSA` (SHA-256 hash, RSA-PKCS1v1.5 sign, base64 encode)
is cryptographic and is abstracted as a function parameter `signFn`:
`signFn m` stands for `base64(rsa_pkcs1v15_sign(privateKey, sha256(m)))`,
with `none` standing for a signing error. -/

/-- `sign.GenerateSignature`: marshal the request canonicalization, sign it,
then emit the comma-separated pairs in the fixed order
mchid, nonce_str, signature, timestamp, serial_no. -/
def GenerateSignature (signFn : String → Option String)
    (reqSign : RequestSignature) (mchId serialNo : String) : Except ErrM String :=
  match reqSign.Marshal with
  | .error e => .error e
  | .ok reqSignature =>
    match signFn reqSignature with
    | none => .error .signFailure
    | some signature =>
      .ok ("mchid=\"" ++ mchId ++ "\",nonce_str=\"" ++ reqSign.Nonce ++
           "\",signature=\"" ++ signature ++ "\",timestamp=\"" ++
           toString reqSign.Timestamp ++ "\",serial_no=\"" ++ serialNo ++ "\"")

/-- Option values from config.go (`refreshTime` is kept in seconds). -/
structure ClientOptions where
  Domain : String
  Schema : String
  CertUrl : String
  refreshTime : Int
deriving DecidableEq

def defaultSchema : String := "WECHATPAY2-SHA256-RSA2048"

def defaultDomain : String := "https://api.mch.weixin.qq.com"

/-- config.go `defaultOptions` (the 12h refresh interval in seconds). -/
def defaultOptions : ClientOptions :=
  { Schema := defaultSchema, Domain := defaultDomain,
    CertUrl := defaultDomain ++ "/v3/certificates", refreshTime := 43200 }

/-! ## Header timestamp parsing (client.go step 5, notify.go intake) -/

/-- Accumulate decimal digits; fails on any non-digit. -/
def decDigitsVal : List Char → Nat → Option Nat
  | [], acc => some acc
  | c :: rest, acc =>
    if c.isDigit then decDigitsVal rest (acc * 10 + (c.toNat - 48)) else none

/-- Model of Go `strconv.ParseInt(s, 10, 64)`: optional sign, at least one
decimal digit, no other characters, result within the signed 64-bit range. -/
def parseInt64 (s : String) : Option Int :=
  match s.data with
  | [] => none
  | c :: rest =>
    let p : Bool × List Char :=
      if c = '-' then (true, rest)
      else if c = '+' then (false, rest)
      else (false, c :: rest)
    match p.2 with
    | [] => none
    | ds =>
      match decDigitsVal ds 0 with
      | none => none
      | some n =>
        let v : Int := if p.1 then -(n : Int) else (n : Int)
        if -(2 ^ 63) ≤ v ∧ v ≤ 2 ^ 63 - 1 then some v else none

/-- The `Wechatpay-Timestamp` handling shared by client.go `do` (lines
206-213) and notify.go `ParseHttpRequest`: an empty (missing) header is
left as timestamp 0; a nonempty header must parse as a signed 64-bit
decimal, otherwise the strconv error (*bad-header*) is returned. -/
def parseTimestampHeader (ts : String) : Except ErrM Int :=
  if ts ≠ "" then
    match parseInt64 ts with
    | none => .error .badHeader
    | some i => .ok i
  else .ok 0

example : parseTimestampHeader "xxx" = .error .badHeader := rfl
example : parseTimestampHeader "" = .ok 0 := rfl
example : parseTimestampHeader "1611368330" = .ok 1611368330 := rfl
example : parseInt64 "9223372036854775808" = none := rfl
example : parseInt64 "-9223372036854775808" = some (-9223372036854775808) := rfl

/-! ## Request-value serialization (client.go `Do`, step 1)

Go interface values passed as the variadic request argument are modelled
by `GoVal`: `nilIface` is the untyped `nil` literal, `typedNilPtr` is a
typed-nil pointer boxed in a non-nil interface (so it compares unequal to
`nil`, and `encoding/json.Marshal` serializes it to the literal `null`),
and `obj s` is a value whose JSON serialization is `s`. -/

inductive GoVal
  /-- the untyped `nil` interface value -/
  | nilIface
  /-- a typed-nil pointer: the interface is non-nil, `json.Marshal` gives `null` -/
  | typedNilPtr
  /-- an ordinary value with JSON serialization `s` -/
  | obj (s : String)
deriving DecidableEq

/-- Model of `encoding/json.Marshal` on the request values above. -/
def jsonMarshal : GoVal → String
  | .nilIface => "null"
  | .typedNilPtr => "null"
  | .obj s => s

/-- client.go `Do` step 1: serialize `req[0]` when an argument was given,
the method is not GET, and the interface value is non-nil. -/
def serializeReq (method : String) (req : Option GoVal) : String :=
  match req with
  | none => ""
  | some v =>
    if v ≠ GoVal.nilIface ∧ method ≠ "GET" then jsonMarshal v else ""

/-! ## Certificate cache (client.go `secrets`)

The RSA public keys stored in the cache are opaque to every claim; they
are modelled as `Nat` tokens.  The read/write lock only orders concurrent
in-memory access, so the sequential model takes the current time as an
explicit argument. -/

structure secrets where
  deadline : Int
  all : List (String × Nat)

/-- `secrets.isUpgrade`: stale iff the deadline is strictly before now,
or the map is empty. -/
def secrets.isUpgrade (now : Int) (s : secrets) : Bool :=
  if s.deadline < now then true
  else s.all.isEmpty

/-- `secrets.add`: map insert/overwrite plus `deadline = now + d`. -/
def secrets.add (now : Int) (key : String) (val : Nat) (d : Int) (s : secrets) : secrets :=
  { deadline := now + d,
    all := (key, val) :: s.all.filter (fun p => p.1 ≠ key) }

/-- `secrets.get`: map lookup. -/
def secrets.get (s : secrets) (key : String) : Option Nat :=
  (s.all.find? (fun p => p.1 = key)).map (fun p => p.2)

/-- `secrets.clear`: empty map, `deadline = now`. -/
def secrets.clear (now : Int) : secrets :=
  { deadline := now, all := [] }

/-! ## HTTP core pipeline (client.go `Do`, `do`, workflows, verification)

The transport and the remaining cryptographic operations are abstracted in
an environment `Env`.  Every pipeline function returns, besides its Go
return values, the updated certificate cache and an event trace recording
the order of the observable steps. -/

/-- An inbound HTTP response: status plus the four `Wechatpay-*` headers
(an absent header is the empty string, as with Go `Header.Get`) and body. -/
structure HttpResp where
  status : Nat
  nonce : String
  signature : String
  tsHeader : String
  serial : String
  body : String
deriving DecidableEq

/-- The `Result` carrier (result.go) with its carried error. -/
structure MResult where
  Body : String
  Timestamp : Int
  Nonce : String
  Signature : String
  SerialNo : String
  err : Option ErrM
deriving DecidableEq

/-- A `&Result{Err: e}` value: zero fields except the error. -/
def errResult (e : ErrM) : MResult :=
  { Body := "", Timestamp := 0, Nonce := "", Signature := "", SerialNo := "",
    err := some e }

/-- Observable pipeline events, in execution order. -/
inductive Event
  /-- the signed HTTP request was handed to the transport -/
  | send
  /-- the status ≥ 300 error branch was taken -/
  | httpErrorBranch
  /-- the four `Wechatpay-*` response headers were extracted -/
  | readHeaders
  /-- a decrypted platform certificate was installed into the cache -/
  | installCert (serial : String)
  /-- the stale-check decided to download certificates (cert-fetch sub-call follows) -/
  | refreshStart
  /-- `sign.VerifySignature` was invoked on the response -/
  | verify
deriving DecidableEq

/-- Abstracted effects: the transport, `json.Unmarshal` into `Error`,
the certificate payload pipeline (`json.Unmarshal` into
`CertificatesResponse`, AES-256-GCM decryption with the api-v3 secret and
`LoadRSAPublicKeyFromCert`, collapsed to a serial-to-key list), RSA
response verification, the signing primitive, the fresh timestamp/nonce
from `NewRequestSignature`, and the configured options. -/
structure Env where
  /-- transport: method, url, body to an HTTP response (`none` = network error) -/
  transport : String → String → String → Option HttpResp
  /-- `json.Unmarshal` of an error body into code and message -/
  decodeErrBody : String → Option (String × String)
  /-- certificate bootstrap payload to the decrypted (serial, key) list -/
  decodeCerts : String → Option (List (String × Nat))
  /-- RSA verify of key, timestamp, nonce, body, base64 signature -/
  verifyOk : Nat → Int → String → String → String → Bool
  /-- `SignatureSHA256WithRSA` with the merchant private key -/
  signFn : String → Option String
  /-- `time.Now().Unix()` at request-build time -/
  now : Int
  /-- the fresh `randomHex(32)` nonce -/
  nonce : String
  /-- configured options and merchant identity -/
  certUrl : String
  refreshTime : Int
  mchId : String
  serialNo : String
  schema : String

/-- client.go `genRequestSignature` / `sign.NewRequestSignature` applied to
the serialized body of step 1. -/
def mkReqSign (env : Env) (method url : String) (req : Option GoVal) : RequestSignature :=
  { Method := method, Url := url, Timestamp := env.now, Nonce := env.nonce,
    Body := serializeReq method req }

/-- client.go `Signature`: scheme label, space, `GenerateSignature` pairs. -/
def clientSignature (env : Env) (reqSign : RequestSignature) : Except ErrM String :=
  match GenerateSignature env.signFn reqSign env.mchId env.serialNo with
  | .error e => .error e
  | .ok signature => .ok (env.schema ++ " " ++ signature)

/-- client.go `do` (steps 2-5): build the HTTP request (`http.NewRequest`
re-parses the url), sign, send, then either take the ≥ 300 error branch
(read body, `json.Unmarshal` into `Error{Status: status}`) or extract the
four `Wechatpay-*` headers, parse the timestamp, and read the body (empty
on 204 No Content). -/
def clientDoHttp (env : Env) (reqSign : RequestSignature) : MResult × List Event :=
  match parseUrl reqSign.Url with
  | none => (errResult .badUrl, [])
  | some _ =>
    match clientSignature env reqSign with
    | .error e => (errResult e, [])
    | .ok _ =>
      match env.transport reqSign.Method reqSign.Url reqSign.Body with
      | none => (errResult .transportErr, [.send])
      | some resp =>
        if resp.status ≥ 300 then
          match env.decodeErrBody resp.body with
          | none => (errResult .jsonErr, [.send, .httpErrorBranch])
          | some cm =>
            (errResult (.httpError resp.status cm.1 cm.2), [.send, .httpErrorBranch])
        else
          match parseTimestampHeader resp.tsHeader with
          | .error e => (errResult e, [.send, .readHeaders])
          | .ok ts =>
            ({ Body := if resp.status ≠ 204 then resp.body else "",
               Timestamp := ts, Nonce := resp.nonce,
               Signature := resp.signature, SerialNo := resp.serial,
               err := none }, [.send, .readHeaders])

/-- The registered extra workflows (`extraWorkflowsMapping` has the single
key "cert"). -/
inductive Workflow
  | cert
deriving DecidableEq

/-- client.go `getExtraWorkflows`: the cert workflow is selected exactly
when the method is GET and the url equals the configured cert-fetch url. -/
def getExtraWorkflows (env : Env) (reqSign : RequestSignature) : List Workflow :=
  if reqSign.Method = "GET" ∧ reqSign.Url = env.certUrl then [Workflow.cert]
  else []

/-- client.go `upgradeCertWorkflow`: decode the bootstrap payload, decrypt
each certificate and `secrets.add` its public key with the refresh ttl. -/
def upgradeCertWorkflow (env : Env) (cache : secrets) (result : MResult) :
    secrets × Option ErrM × List Event :=
  match env.decodeCerts result.Body with
  | none => (cache, some .jsonErr, [])
  | some certs =>
    (certs.foldl (fun c p => secrets.add env.now p.1 p.2 env.refreshTime c) cache,
     none, certs.map (fun p => Event.installCert p.1))

/-- client.go `doExtraWorkflow`: run the selected workflows in order,
stopping at the first error. -/
def doExtraWorkflow (env : Env) (reqSign : RequestSignature) (cache : secrets)
    (result : MResult) : secrets × Option ErrM × List Event :=
  (getExtraWorkflows env reqSign).foldl
    (fun st wf =>
      match st.2.1 with
      | some _ => st
      | none =>
        match wf with
        | Workflow.cert =>
          let w := upgradeCertWorkflow env st.1 result
          (w.1, w.2.1, st.2.2 ++ w.2.2))
    (cache, none, [])

/-- The lookup-and-verify tail of client.go `VerifySignature`: fetch the
cached key for the response serial and run `sign.VerifySignature`. -/
def lookupVerify (env : Env) (cache : secrets) (result : MResult) :
    Option ErrM × List Event :=
  match cache.get result.SerialNo with
  | none => (some .certNotFound, [])
  | some pk =>
    if env.verifyOk pk result.Timestamp result.Nonce result.Body result.Signature
    then (none, [Event.verify])
    else (some .badSignature, [Event.verify])

/-- client.go `onceDownloadCertificates`, parameterized by the cert-fetch
sub-call `doCert`.  `flag` is the `ctxKeyOnceDlCert` sentinel on the
per-call context: when it is already set the whole stale-check-and-refresh
is skipped; otherwise the sub-call runs with the sentinel set (which is
why `doCert` is the flagged variant of `Do`). -/
def onceDownloadWith (doCert : secrets → secrets × MResult × List Event)
    (flag : Bool) (env : Env) (cache : secrets) :
    secrets × Option ErrM × List Event :=
  if flag then (cache, none, [])
  else if secrets.isUpgrade env.now cache then
    let d := doCert cache
    match d.2.1.err with
    | some e => (d.1, some e, Event.refreshStart :: d.2.2)
    | none => (d.1, none, Event.refreshStart :: d.2.2)
  else (cache, none, [])

/-- client.go `VerifySignature`, parameterized like `onceDownloadWith`:
stale-check-and-refresh, then key lookup and RSA verification. -/
def verifySignatureWith (doCert : secrets → secrets × MResult × List Event)
    (flag : Bool) (env : Env) (cache : secrets) (result : MResult) :
    secrets × Option ErrM × List Event :=
  let od := onceDownloadWith doCert flag env cache
  match od.2.1 with
  | some e => (od.1, some e, od.2.2)
  | none =>
    let lv := lookupVerify env od.1 result
    (od.1, lv.1, od.2.2 ++ lv.2)

/-- client.go `Do` (the full pipeline), parameterized by the verification
step: serialize, sign and send, then extra workflow, then verification. -/
def doPipelineWith (verifier : secrets → MResult → secrets × Option ErrM × List Event)
    (env : Env) (cache : secrets) (method url : String) (req : Option GoVal) :
    secrets × MResult × List Event :=
  let reqSign := mkReqSign env method url req
  let dr := clientDoHttp env reqSign
  match dr.1.err with
  | some _ => (cache, dr.1, dr.2)
  | none =>
    let wf := doExtraWorkflow env reqSign cache dr.1
    match wf.2.1 with
    | some e => (wf.1, { dr.1 with err := some e }, dr.2 ++ wf.2.2)
    | none =>
      let vr := verifier wf.1 dr.1
      (vr.1, { dr.1 with err := vr.2.1 }, dr.2 ++ wf.2.2 ++ vr.2.2)

/-- Placeholder sub-call used when the context sentinel is already set;
`onceDownloadWith _ true` never invokes it (see
`c4_refresh_guard` conjunct one). -/
def noCertSub : secrets → secrets × MResult × List Event :=
  fun c => (c, errResult .transportErr, [])

/-- The certificate-fetch sub-call issued by `onceDownloadCertificates`:
`c.Do(ctx, GET, certUrl)` on a context carrying the sentinel, so its own
verification step skips the stale-check-and-refresh. -/
def doCertSub (env : Env) (cache : secrets) : secrets × MResult × List Event :=
  doPipelineWith (verifySignatureWith noCertSub true env) env cache "GET" env.certUrl none

/-- client.go `Do` as called by endpoint code (fresh context, sentinel unset). -/
def clientDo (env : Env) (cache : secrets) (method url : String) (req : Option GoVal) :
    secrets × MResult × List Event :=
  doPipelineWith (verifySignatureWith (doCertSub env) false env) env cache method url req

/-- client.go `VerifySignature` on a fresh context (sentinel unset). -/
def clientVerifySignature (env : Env) (cache : secrets) (result : MResult) :
    secrets × Option ErrM × List Event :=
  verifySignatureWith (doCertSub env) false env cache result

/-- Number of stale-triggered certificate refreshes in a trace. -/
def countRefresh (evs : List Event) : Nat :=
  evs.countP (fun e => e = Event.refreshStart)

/-- True when no `installCert` event occurs at or after the first `verify`
event, i.e. every certificate install precedes every verification. -/
def noInstallFromFirstVerify : List Event → Bool
  | [] => true
  | Event.verify :: rest =>
    rest.all (fun e => match e with | Event.installCert _ => false | _ => true)
  | _ :: rest => noInstallFromFirstVerify rest

/-! ## Trade bill decoding (tradebill.go) -/

/-- The back-tick character U+0060 that prefixes bill fields. -/
def backtickChar : Char := Char.ofNat 0x60

/-- tradebill.go `removeDot`: strip one leading back-tick when present. -/
def removeDot (s : String) : String :=
  match s.data with
  | c :: rest => if c = backtickChar then String.mk rest else s
  | [] => s

/-- tradebill.go `atoi`: `removeDot` then `strconv.Atoi` (64-bit int). -/
def atoi (s : String) : Option Int :=
  parseInt64 (removeDot s)

/-- Digits-only value, allowing the empty list (used for the integer and
fraction parts around a decimal point). -/
def decDigitsOpt : List Char → Option Nat
  | l => decDigitsVal l 0

/-- Model of `strconv.ParseFloat(s, 64)` on the plain decimal forms that
occur in bills (optional sign, digits with an optional single decimal
point, at least one digit): the exact decimal value as a rational.
Exponent, hex-float, infinity/NaN and underscore forms — which never
appear in bill data — are not modelled. -/
def parseFloatDec (l : List Char) : Option Rat :=
  let p : Bool × List Char :=
    match l with
    | '-' :: r => (true, r)
    | '+' :: r => (false, r)
    | _ => (false, l)
  match cutFirst '.' p.2 with
  | none =>
    match p.2 with
    | [] => none
    | ds =>
      match decDigitsOpt ds with
      | none => none
      | some n => some (if p.1 then -(n : Rat) else (n : Rat))
  | some ip =>
    if ip.1 = [] ∧ ip.2 = [] then none
    else
      match decDigitsOpt ip.1, decDigitsOpt ip.2 with
      | some a, some b =>
        let v := mkRat (a * 10 ^ ip.2.length + b) (10 ^ ip.2.length)
        some (if p.1 then -v else v)
      | _, _ => none

/-- tradebill.go `parseFloat`: `removeDot` then `strconv.ParseFloat`. -/
def parseFloat (s : String) : Option Rat :=
  parseFloatDec (removeDot s).data

example : parseFloat "\x600.03" = some (mkRat 3 100) := rfl
example : parseFloat "\x60a0.03" = none := rfl
example : atoi "\x603" = some 3 := rfl

/-- The summary row of a trade bill (seven numeric columns). -/
structure TradeBillSummary where
  TotalNumberOfTransactions : Int
  TotalSettlementFee : Rat
  TotalRefundFee : Rat
  TotalCouponFee : Rat
  TotalCommissionFee : Rat
  TotalApplyRefundFee : Rat
  TotalAmount : Rat
deriving DecidableEq

/-- tradebill.go `UnmarshalTradeBillSummary`: exactly 7 fields, the first
an integer, the rest decimals; any parse failure fails the row. -/
def UnmarshalTradeBillSummary (values : List String) : Option TradeBillSummary :=
  match values with
  | [v0, v1, v2, v3, v4, v5, v6] =>
    match atoi v0, parseFloat v1, parseFloat v2, parseFloat v3,
          parseFloat v4, parseFloat v5, parseFloat v6 with
    | some i0, some f1, some f2, some f3, some f4, some f5, some f6 =>
      some { TotalNumberOfTransactions := i0, TotalSettlementFee := f1,
             TotalRefundFee := f2, TotalCouponFee := f3,
             TotalCommissionFee := f4, TotalApplyRefundFee := f5,
             TotalAmount := f6 }
    | _, _, _, _, _, _, _ => none
  | _ => none

/-- An ALL-type trade bill record (27 columns). -/
structure AllTradeBill where
  TradeTime : String
  AppId : String
  MchId : String
  SpecialMechId : String
  DeviceId : String
  TransactionId : String
  OutTradeNo : String
  OpenId : String
  TardeType : String
  TradeState : String
  BankType : String
  Currency : String
  SettlementTotalFee : Rat
  CouponAmount : Rat
  PayerRefundId : String
  MerchantRefundId : String
  RefundAmount : Rat
  CouponRefundAmount : Rat
  RefundType : String
  RefundStatus : String
  GoodName : String
  Attach : String
  CommissionFee : Rat
  Rate : String
  Amount : Rat
  RefundApplyAmount : Rat
  RateComment : String
deriving DecidableEq

/-- tradebill.go `UnmarshalAllTradeBill`: exactly 27 fields; string fields
are back-tick-stripped, the seven numeric fields must parse. -/
def UnmarshalAllTradeBill (values : List String) : Option AllTradeBill :=
  match values with
  | [v0, v1, v2, v3, v4, v5, v6, v7, v8, v9, v10, v11, v12, v13, v14, v15,
     v16, v17, v18, v19, v20, v21, v22, v23, v24, v25, v26] =>
    match parseFloat v12, parseFloat v13, parseFloat v16, parseFloat v17,
          parseFloat v22, parseFloat v24, parseFloat v25 with
    | some f12, some f13, some f16, some f17, some f22, some f24, some f25 =>
      some { TradeTime := removeDot v0, AppId := removeDot v1,
             MchId := removeDot v2, SpecialMechId := removeDot v3,
             DeviceId := removeDot v4, TransactionId := removeDot v5,
             OutTradeNo := removeDot v6, OpenId := removeDot v7,
             TardeType := removeDot v8, TradeState := removeDot v9,
             BankType := removeDot v10, Currency := removeDot v11,
             SettlementTotalFee := f12, CouponAmount := f13,
             PayerRefundId := removeDot v14, MerchantRefundId := removeDot v15,
             RefundAmount := f16, CouponRefundAmount := f17,
             RefundType := removeDot v18, RefundStatus := removeDot v19,
             GoodName := removeDot v20, Attach := removeDot v21,
             CommissionFee := f22, Rate := removeDot v23,
             Amount := f24, RefundApplyAmount := f25,
             RateComment := removeDot v26 }
    | _, _, _, _, _, _, _ => none
  | _ => none

/-- A REFUND-type trade bill record (29 columns). -/
structure RefundTradeBill where
  TradeTime : String
  AppId : String
  MchId : String
  SpecialMechId : String
  DeviceId : String
  TransactionId : String
  OutTradeNo : String
  OpenId : String
  TardeType : String
  TradeState : String
  BankType : String
  Currency : String
  SettlementTotalFee : Rat
  CouponAmount : Rat
  RefundApplyTime : String
  RefundSuccessTime : String
  PayerRefundId : String
  MerchantRefundId : String
  RefundAmount : Rat
  CouponRefundAmount : Rat
  RefundType : String
  RefundStatus : String
  GoodName : String
  Attach : String
  CommissionFee : Rat
  Rate : String
  Amount : Rat
  RefundApplyAmount : Rat
  RateComment : String
deriving DecidableEq

/-- tradebill.go `UnmarshalRefundTradeBill`: exactly 29 fields. -/
def UnmarshalRefundTradeBill (values : List String) : Option RefundTradeBill :=
  match values with
  | [v0, v1, v2, v3, v4, v5, v6, v7, v8, v9, v10, v11, v12, v13, v14, v15,
     v16, v17, v18, v19, v20, v21, v22, v23, v24, v25, v26, v27, v28] =>
    match parseFloat v12, parseFloat v13, parseFloat v18, parseFloat v19,
          parseFloat v24, parseFloat v26, parseFloat v27 with
    | some f12, some f13, some f18, some f19, some f24, some f26, some f27 =>
      some { TradeTime := removeDot v0, AppId := removeDot v1,
             MchId := removeDot v2, SpecialMechId := removeDot v3,
             DeviceId := removeDot v4, TransactionId := removeDot v5,
             OutTradeNo := removeDot v6, OpenId := removeDot v7,
             TardeType := removeDot v8, TradeState := removeDot v9,
             BankType := removeDot v10, Currency := removeDot v11,
             SettlementTotalFee := f12, CouponAmount := f13,
             RefundApplyTime := removeDot v14, RefundSuccessTime := removeDot v15,
             PayerRefundId := removeDot v16, MerchantRefundId := removeDot v17,
             RefundAmount := f18, CouponRefundAmount := f19,
             RefundType := removeDot v20, RefundStatus := removeDot v21,
             GoodName := removeDot v22, Attach := removeDot v23,
             CommissionFee := f24, Rate := removeDot v25,
             Amount := f26, RefundApplyAmount := f27,
             RateComment := removeDot v28 }
    | _, _, _, _, _, _, _ => none
  | _ => none

/-- A SUCCESS-type trade bill record (20 columns). -/
structure SuccessTradeBill where
  TradeTime : String
  AppId : String
  MchId : String
  SpecialMechId : String
  DeviceId : String
  TransactionId : String
  OutTradeNo : String
  OpenId : String
  TardeType : String
  TradeState : String
  BankType : String
  Currency : String
  SettlementTotalFee : Rat
  CouponAmount : Rat
  GoodName : String
  Attach : String
  CommissionFee : Rat
  Rate : String
  Amount : Rat
  RateComment : String
deriving DecidableEq

/-- tradebill.go `UnmarshalSuccessTradeBill`: exactly 20 fields. -/
def UnmarshalSuccessTradeBill (values : List String) : Option SuccessTradeBill :=
  match values with
  | [v0, v1, v2, v3, v4, v5, v6, v7, v8, v9, v10, v11, v12, v13, v14, v15,
     v16, v17, v18, v19] =>
    match parseFloat v12, parseFloat v13, parseFloat v16, parseFloat v18 with
    | some f12, some f13, some f16, some f18 =>
      some { TradeTime := removeDot v0, AppId := removeDot v1,
             MchId := removeDot v2, SpecialMechId := removeDot v3,
             DeviceId := removeDot v4, TransactionId := removeDot v5,
             OutTradeNo := removeDot v6, OpenId := removeDot v7,
             TardeType := removeDot v8, TradeState := removeDot v9,
             BankType := removeDot v10, Currency := removeDot v11,
             SettlementTotalFee := f12, CouponAmount := f13,
             GoodName := removeDot v14, Attach := removeDot v15,
             CommissionFee := f16, Rate := removeDot v17,
             Amount := f18, RateComment := removeDot v19 }
    | _, _, _, _ => none
  | _ => none

/-- The bill types (Go string constants). -/
def AllBill : String := "ALL"

def SuccessBill : String := "SUCCESS"

def RefundBill : String := "REFUND"

/-- The decoded trade bill response. -/
structure TradeBillResponse where
  Summary : TradeBillSummary
  Refund : List RefundTradeBill
  All : List AllTradeBill
  Success : List SuccessTradeBill
deriving DecidableEq

/-- The Go zero value of `TradeBillResponse`. -/
def emptyTradeBillResponse : TradeBillResponse :=
  { Summary := { TotalNumberOfTransactions := 0, TotalSettlementFee := 0,
                 TotalRefundFee := 0, TotalCouponFee := 0,
                 TotalCommissionFee := 0, TotalApplyRefundFee := 0,
                 TotalAmount := 0 },
    Refund := [], All := [], Success := [] }

/-- Drop one trailing carriage return (`bufio.ScanLines` `dropCR`). -/
def dropCR (l : List Char) : List Char :=
  if l.getLast? = some '\r' then l.dropLast else l

/-- Model of a `bufio.Scanner` with `ScanLines`: tokens are the segments
between LF separators, without a final empty token for a trailing LF, and
with one trailing CR stripped from each token. -/
def scanLines (s : String) : List String :=
  let parts := splitChar '\n' s.data
  let parts2 := if parts.getLast? = some [] then parts.dropLast else parts
  parts2.map (fun l => String.mk (dropCR l))

/-- Comma field split of one bill line (Go `strings.Split(text, ",")`). -/
def splitComma (s : String) : List String :=
  (splitChar ',' s.data).map String.mk

/-- The scan loop of tradebill.go `UnmarshalTradeBillResponse` after the
title row was skipped: a 7-field row is the summary-header when `first` is
still true, the summary row (then decoding stops) otherwise; every other
row is decoded according to the bill type (the `default` branch equals the
ALL branch) and appended. -/
def tradeBillLoop (billType : String) (first : Bool) (acc : TradeBillResponse) :
    List String → Option TradeBillResponse
  | [] => some acc
  | line :: rest =>
    let values := splitComma line
    if values.length = 7 then
      if first then tradeBillLoop billType false acc rest
      else
        match UnmarshalTradeBillSummary values with
        | none => none
        | some s => some { acc with Summary := s }
    else if billType = AllBill then
      match UnmarshalAllTradeBill values with
      | none => none
      | some b => tradeBillLoop billType first { acc with All := acc.All ++ [b] } rest
    else if billType = RefundBill then
      match UnmarshalRefundTradeBill values with
      | none => none
      | some b => tradeBillLoop billType first { acc with Refund := acc.Refund ++ [b] } rest
    else if billType = SuccessBill then
      match UnmarshalSuccessTradeBill values with
      | none => none
      | some b => tradeBillLoop billType first { acc with Success := acc.Success ++ [b] } rest
    else
      match UnmarshalAllTradeBill values with
      | none => none
      | some b => tradeBillLoop billType first { acc with All := acc.All ++ [b] } rest

/-- tradebill.go `UnmarshalTradeBillResponse`: reject empty data, scan
lines, skip the title row (`i == 0`), then run the loop. -/
def UnmarshalTradeBillResponse (billType : String) (data : String) :
    Option TradeBillResponse :=
  if data = "" then none
  else
    match scanLines data with
    | [] => some emptyTradeBillResponse
    | _ :: rest => tradeBillLoop billType true emptyTradeBillResponse rest

/-! ## Notification intake and acknowledgement (notify.go) -/

/-- notify.go `PayNotification.ParseHttpRequest` after the body read: take
the four `Wechatpay-*` headers, parse the timestamp exactly as the client
response path does, and build the `Result` carrier handed to `Parse`. -/
def notificationIntake (nonce signature ts serialNo body : String) :
    Except ErrM MResult :=
  match parseTimestampHeader ts with
  | .error e => .error e
  | .ok t =>
    .ok { Body := body, Timestamp := t, Nonce := nonce, Signature := signature,
          SerialNo := serialNo, err := none }

/-- notify.go `NotificationAnswer` (code and message strings). -/
structure NotificationAnswer where
  Code : String
  Message : String
deriving DecidableEq

/-- notify.go `NotificationAnswer.String`: a raw concatenation with no JSON
escaping of the field values. -/
def NotificationAnswer.Str (a : NotificationAnswer) : String :=
  "\x7b\"code\":\"" ++ a.Code ++ "\",\"message\":\"" ++ a.Message ++ "\"\x7d"

/-- notify.go `NotificationAnswer.Bytes`: byte conversion of `Str`. -/
def NotificationAnswer.Bytes (a : NotificationAnswer) : List Char :=
  a.Str.data

/-! ## A JSON validity witness grammar (RFC 8259 subset)

The following inductive predicates describe a subset of RFC 8259 JSON
texts: objects whose members are string-valued, written without optional
whitespace, with the standard string-character and escape rules.  Any
character list in `JsonObjectText` is a valid JSON text; the predicate is
used to certify validity of `NotificationAnswer` outputs. -/

def backslashChar : Char := Char.ofNat 0x5c

def quoteChar : Char := Char.ofNat 0x22

def lbraceChar : Char := Char.ofNat 0x7b

def rbraceChar : Char := Char.ofNat 0x7d

/-- One character of a JSON string literal body. -/
inductive JStrChar : List Char → Prop
  /-- an unescaped character: not a quote, not a backslash, not a control -/
  | unescaped (c : Char) : c ≠ quoteChar → c ≠ backslashChar → 0x20 ≤ c.val →
      JStrChar [c]
  /-- a two-character escape -/
  | esc (c : Char) :
      (c = quoteChar ∨ c = backslashChar ∨ c = '/' ∨ c = 'b' ∨ c = 'f' ∨
       c = 'n' ∨ c = 'r' ∨ c = 't') →
      JStrChar [backslashChar, c]
  /-- a `\uXXXX` escape -/
  | escU (h1 h2 h3 h4 : Char) :
      (hexDigitVal h1).isSome → (hexDigitVal h2).isSome →
      (hexDigitVal h3).isSome → (hexDigitVal h4).isSome →
      JStrChar [backslashChar, 'u', h1, h2, h3, h4]

/-- A JSON string literal body: a concatenation of `JStrChar` pieces. -/
inductive JStrBody : List Char → Prop
  | nil : JStrBody []
  | cons {a b : List Char} : JStrChar a → JStrBody b → JStrBody (a ++ b)

/-- A nonempty member list `"k":"v"(,"k":"v")*` with string values. -/
inductive JMembers : List Char → Prop
  | one {k v : List Char} : JStrBody k → JStrBody v →
      JMembers (quoteChar :: k ++ [quoteChar, ':', quoteChar] ++ v ++ [quoteChar])
  | more {k v rest : List Char} : JStrBody k → JStrBody v → JMembers rest →
      JMembers (quoteChar :: k ++ [quoteChar, ':', quoteChar] ++ v ++
                [quoteChar, ','] ++ rest)

/-- A JSON text that is an object of string members (so in particular a
valid RFC 8259 JSON text). -/
inductive JsonObjectText : List Char → Prop
  | empty : JsonObjectText [lbraceChar, rbraceChar]
  | obj {m : List Char} : JMembers m → JsonObjectText (lbraceChar :: m ++ [rbraceChar])

/-! ## The canonical ALL trade bill sample (tradebill_test.go) -/

/-- The title row of the canonical ALL trade bill. -/
def canonicalTitleRow : String :=
  "\u4ea4\u6613\u65f6\u95f4,\u516c\u4f17\u8d26\u53f7ID,\u5546\u6237\u53f7,\u7279\u7ea6\u5546\u6237\u53f7,\u8bbe\u5907\u53f7,\u5fae\u4fe1\u8ba2\u5355\u53f7,\u5546\u6237\u8ba2\u5355\u53f7,\u7528\u6237\u6807\u8bc6,\u4ea4\u6613\u7c7b\u578b,\u4ea4\u6613\u72b6\u6001,\u4ed8\u6b3e\u94f6\u884c,\u8d27\u5e01\u79cd\u7c7b,\u5e94\u7ed3\u8ba2\u5355\u91d1\u989d,\u4ee3\u91d1\u5238\u91d1\u989d,\u5fae\u4fe1\u9000\u6b3e\u5355\u53f7,\u5546\u6237\u9000\u6b3e\u5355\u53f7,\u9000\u6b3e\u91d1\u989d,\u5145\u503c\u5238\u9000\u6b3e\u91d1\u989d,\u9000\u6b3e\u7c7b\u578b,\u9000\u6b3e\u72b6\u6001,\u5546\u54c1\u540d\u79f0,\u5546\u6237\u6570\u636e\u5305,\u624b\u7eed\u8d39,\u8d39\u7387,\u8ba2\u5355\u91d1\u989d,\u7533\u8bf7\u9000\u6b3e\u91d1\u989d,\u8d39\u7387\u5907\u6ce8"

/-- First canonical data row (27 back-tick-prefixed fields). -/
def canonicalDataRow1 : String :=
  "\x602021-01-28 17:07:11,\x60wx81be3101902f7cb2,\x601601959334,\x600,\x60,\x604200000925202101284997714292,\x60S20210128170702357723,\x60ofyak5qR_1wYsC99CsWA6R9MJazA,\x60NATIVE,\x60SUCCESS,\x60OTHERS,\x60CNY,\x600.01,\x600.00,\x600,\x600,\x600.00,\x600.00,\x60,\x60,\x60for testing,\x60cipher code,\x600.00000,\x601.00%,\x600.01,\x600.00,\x60"

/-- Second canonical data row. -/
def canonicalDataRow2 : String :=
  "\x602021-01-28 15:35:18,\x60wx81be3101902f7cb2,\x601601959334,\x600,\x60,\x604200000910202101282955148400,\x60S20210128153505214586,\x60ofyak5qR_1wYsC99CsWA6R9MJazA,\x60NATIVE,\x60SUCCESS,\x60OTHERS,\x60CNY,\x600.01,\x600.00,\x600,\x600,\x600.00,\x600.00,\x60,\x60,\x60for testing,\x60cipher code,\x600.00000,\x601.00%,\x600.01,\x600.00,\x60"

/-- Third canonical data row. -/
def canonicalDataRow3 : String :=
  "\x602021-01-28 16:59:46,\x60wx81be3101902f7cb2,\x601601959334,\x600,\x60,\x604200000926202101281412639609,\x60S20210128165824499930,\x60ofyak5qR_1wYsC99CsWA6R9MJazA,\x60NATIVE,\x60SUCCESS,\x60OTHERS,\x60CNY,\x600.01,\x600.00,\x600,\x600,\x600.00,\x600.00,\x60,\x60,\x60for testing,\x60cipher code,\x600.00000,\x601.00%,\x600.01,\x600.00,\x60"

/-- The summary-header row (seven column titles, comma separated). -/
def canonicalSummaryHeaderRow : String :=
  "\u603b\u4ea4\u6613\u5355\u6570,\u5e94\u7ed3\u8ba2\u5355\u603b\u91d1\u989d,\u9000\u6b3e\u603b\u91d1\u989d,\u5145\u503c\u5238\u9000\u6b3e\u603b\u91d1\u989d,\u624b\u7eed\u8d39\u603b\u91d1\u989d,\u8ba2\u5355\u603b\u91d1\u989d,\u7533\u8bf7\u9000\u6b3e\u603b\u91d1\u989d"

/-- The summary row of the canonical sample. -/
def canonicalSummaryRow : String :=
  "\x603,\x600.03,\x600.00,\x600.00,\x600.00000,\x600.03,\x600.00"

/-- The canonical 3-row ALL trade bill: title row, three 27-field data
rows, summary-header row, summary row, each LF-terminated. -/
def canonicalAllBill : String :=
  canonicalTitleRow ++ "\n" ++ canonicalDataRow1 ++ "\n" ++ canonicalDataRow2 ++ "\n" ++
  canonicalDataRow3 ++ "\n" ++ canonicalSummaryHeaderRow ++ "\n" ++ canonicalSummaryRow ++ "\n"

/-- A summary row with a non-numeric apply-refund column
(tradebill_test.go failure case). -/
def canonicalBadSummaryRow : String :=
  "\x603,\x600.03,\x600.00,\x600.00,\x600.00000,\x600.03,\x60a0.00"

/-- The canonical sample with the corrupted summary row. -/
def canonicalAllBillBadNumeric : String :=
  canonicalTitleRow ++ "\n" ++ canonicalDataRow1 ++ "\n" ++ canonicalSummaryHeaderRow ++ "\n" ++
  canonicalBadSummaryRow ++ "\n"

/-! ## Concrete environments used by witnesses and counterexamples -/

/-- A successful certificate-fetch response. -/
def respA : HttpResp :=
  { status := 200, nonce := "RN", signature := "RS", tsHeader := "1611368330",
    serial := "SER1", body := "CERTPAYLOAD" }

/-- An environment whose transport always answers with `respA`, whose
certificate payload decodes to the single key `("SER1", 7)`, and whose RSA
operations always succeed. -/
def envA : Env :=
  { transport := fun _ _ _ => some respA,
    decodeErrBody := fun _ => none,
    decodeCerts := fun b => if b = "CERTPAYLOAD" then some [("SER1", 7)] else none,
    verifyOk := fun _ _ _ _ _ => true,
    signFn := fun _ => some "SIGB64",
    now := 1000, nonce := "NONCE32",
    certUrl := "https://api.mch.weixin.qq.com/v3/certificates",
    refreshTime := 43200, mchId := "1601959334", serialNo := "SN123",
    schema := defaultSchema }

/-- A platform error response (status 500). -/
def respB : HttpResp :=
  { status := 500, nonce := "", signature := "", tsHeader := "", serial := "",
    body := "EB" }

/-- An environment whose transport answers with the error response. -/
def envB : Env :=
  { envA with transport := fun _ _ _ => some respB,
              decodeErrBody := fun b =>
                if b = "EB" then some ("SYSTEMERROR", "system busy") else none }

/-- A success response without a `Wechatpay-Timestamp` header. -/
def respMissingTs : HttpResp :=
  { status := 200, nonce := "RN", signature := "RS", tsHeader := "",
    serial := "SER1", body := "BODY" }

/-- An environment whose transport answers without a timestamp header. -/
def envMissingTs : Env :=
  { envA with transport := fun _ _ _ => some respMissingTs }

/-- A success response with a non-numeric `Wechatpay-Timestamp` header. -/
def respBadTs : HttpResp :=
  { status := 200, nonce := "RN", signature := "RS", tsHeader := "xxx",
    serial := "SER1", body := "BODY" }

/-- An environment whose transport answers with the malformed header. -/
def envBadTs : Env :=
  { envA with transport := fun _ _ _ => some respBadTs }

/-- A plain GET request signature against a parseable url. -/
def reqSignA : RequestSignature :=
  { Method := "GET", Url := "https://host/v3/x", Timestamp := 1000,
    Nonce := "N", Body := "" }

/-! ## Shared helper lemmas -/

/-- A string with length zero is the empty string. -/
theorem string_eq_empty_of_length {s : String} (h : ¬ 0 < s.length) : s = "" := by
  cases s with
  | mk data =>
    cases data with
    | nil => rfl
    | cons c cs => exact absurd (by simp [String.length]) h

/-! ## Claim C1 -/

/-- C1: for every request signature whose url parses, the canonicalization
is method, LF, path (with `?` and the raw query exactly when a query is
present), LF, decimal timestamp, LF, nonce, LF, body (empty for an empty
body), LF; the GET example of scenario S1 yields the literal byte string;
and an unparseable url fails with *bad-url*. -/
theorem c1_request_canonicalization :
    (∀ (r : RequestSignature) (u : URL), parseUrl r.Url = some u →
      RequestSignature.Marshal r = .ok (r.Method ++ "\n" ++
        (if u.RawQuery ≠ "" then u.Path ++ "?" ++ u.RawQuery else u.Path) ++ "\n" ++
        toString r.Timestamp ++ "\n" ++ r.Nonce ++ "\n" ++ r.Body ++ "\n")) ∧
    (∀ r : RequestSignature, parseUrl r.Url = none →
      RequestSignature.Marshal r = .error .badUrl) ∧
    RequestSignature.Marshal
      { Method := "GET", Url := "https://host/v3/certificates",
        Timestamp := 1611368330, Nonce := "AF1404CC2980FB414C99C0B98883BD42",
        Body := "" } =
      .ok "GET\n/v3/certificates\n1611368330\nAF1404CC2980FB414C99C0B98883BD42\n\n" := by
  refine ⟨?_, ?_, rfl⟩
  · intro r u hu
    have hb : (if r.Body.length > 0 then r.Body else "") = r.Body := by
      by_cases h : r.Body.length > 0
      · rw [if_pos h]
      · rw [if_neg h, string_eq_empty_of_length h]
    simp [RequestSignature.Marshal, hu, hb]
  · intro r hu
    simp [RequestSignature.Marshal, hu]

/-- Witness for C1: a url with a query (conclusion one) and the
control-character url of client_test.go (conclusion two). -/
theorem c1_request_canonicalization_witness :
    RequestSignature.Marshal
      { Method := "GET", Url := "https://host/v3/bill?bill_date=2021-01-01",
        Timestamp := 7, Nonce := "N", Body := "B" } =
      .ok "GET\n/v3/bill?bill_date=2021-01-01\n7\nN\nB\n" ∧
    RequestSignature.Marshal
      { Method := "GET", Url := "https:\n//host/v3/certificates",
        Timestamp := 0, Nonce := "", Body := "" } = .error .badUrl := by
  constructor
  · exact c1_request_canonicalization.1
      { Method := "GET", Url := "https://host/v3/bill?bill_date=2021-01-01",
        Timestamp := 7, Nonce := "N", Body := "B" }
      { Scheme := "https", Opaque := "", Host := "host", Path := "/v3/bill",
        RawQuery := "bill_date=2021-01-01", ForceQuery := false, Fragment := "" }
      rfl
  · exact c1_request_canonicalization.2.1
      { Method := "GET", Url := "https:\n//host/v3/certificates",
        Timestamp := 0, Nonce := "", Body := "" } rfl

/-! ## Claim C2 -/

/-- C2: for every successfully signed request the Authorization header
value is the configured scheme label, one space, then the key="value"
pairs in exactly the order mchid, nonce_str, signature, timestamp,
serial_no, where the signature field is `signFn` (standing for the base64
RSA-PKCS1v1.5/SHA-256 signature) applied to the request canonicalization;
and the default scheme label is WECHATPAY2-SHA256-RSA2048. -/
theorem c2_authorization_header :
    (∀ (env : Env) (r : RequestSignature) (m sig : String),
      RequestSignature.Marshal r = .ok m →
      env.signFn m = some sig →
      clientSignature env r = .ok (env.schema ++ " " ++
        ("mchid=\"" ++ env.mchId ++ "\",nonce_str=\"" ++ r.Nonce ++
         "\",signature=\"" ++ sig ++ "\",timestamp=\"" ++
         toString r.Timestamp ++ "\",serial_no=\"" ++ env.serialNo ++ "\""))) ∧
    defaultOptions.Schema = "WECHATPAY2-SHA256-RSA2048" := by
  refine ⟨?_, rfl⟩
  intro env r m sig hm hs
  simp [clientSignature, GenerateSignature, hm, hs]

/-- Witness for C2: the header produced for the S1 request in the concrete
environment `envA`. -/
theorem c2_authorization_header_witness :
    clientSignature envA
      { Method := "GET", Url := "https://host/v3/certificates",
        Timestamp := 1611368330, Nonce := "AF1404CC2980FB414C99C0B98883BD42",
        Body := "" } =
      .ok ("WECHATPAY2-SHA256-RSA2048 mchid=\"1601959334\",nonce_str=\"AF1404CC2980FB414C99C0B98883BD42\",signature=\"SIGB64\",timestamp=\"1611368330\",serial_no=\"SN123\"") :=
  c2_authorization_header.1 envA
    { Method := "GET", Url := "https://host/v3/certificates",
      Timestamp := 1611368330, Nonce := "AF1404CC2980FB414C99C0B98883BD42",
      Body := "" }
    "GET\n/v3/certificates\n1611368330\nAF1404CC2980FB414C99C0B98883BD42\n\n"
    "SIGB64" rfl rfl

/-! ## Claim C5 -/

/-- C5: the staleness check returns true iff the deadline has passed or
the key map is empty; a non-empty cache with a strictly-future deadline is
not stale; `add` sets `deadline = now + ttl`; and an `add` with positive
ttl makes the cache non-stale. -/
theorem c5_cache_staleness :
    (∀ (now : Int) (s : secrets),
      secrets.isUpgrade now s = true ↔ (s.deadline < now ∨ s.all = [])) ∧
    (∀ (now : Int) (s : secrets), s.all ≠ [] → now < s.deadline →
      secrets.isUpgrade now s = false) ∧
    (∀ (now : Int) (key : String) (val : Nat) (ttl : Int) (s : secrets),
      (secrets.add now key val ttl s).deadline = now + ttl) ∧
    (∀ (now : Int) (key : String) (val : Nat) (ttl : Int) (s : secrets),
      0 < ttl → secrets.isUpgrade now (secrets.add now key val ttl s) = false) := by
  refine ⟨?_, ?_, ?_, ?_⟩
  · intro now s
    unfold secrets.isUpgrade
    by_cases h : s.deadline < now
    · simp [h]
    · simp [h, List.isEmpty_iff]
  · intro now s hne hfut
    unfold secrets.isUpgrade
    have h : ¬ s.deadline < now := by omega
    simp [h, List.isEmpty_iff, hne]
  · intro now key val ttl s
    rfl
  · intro now key val ttl s httl
    unfold secrets.isUpgrade secrets.add
    have h : ¬ (now + ttl < now) := by omega
    simp [h]

/-- Witness for C5: a concrete one-entry cache with a future deadline is
not stale, and an `add` with positive ttl on the empty cache produces the
expected deadline and a non-stale cache. -/
theorem c5_cache_staleness_witness :
    secrets.isUpgrade 1000 { deadline := 2000, all := [("SER1", 7)] } = false ∧
    (secrets.add 1000 "SER1" 7 43200 (secrets.clear 1000)).deadline = 1000 + 43200 ∧
    secrets.isUpgrade 1000 (secrets.add 1000 "SER1" 7 43200 (secrets.clear 1000)) = false := by
  refine ⟨?_, ?_, ?_⟩
  · exact c5_cache_staleness.2.1 1000 { deadline := 2000, all := [("SER1", 7)] }
      (by decide) (by decide)
  · exact c5_cache_staleness.2.2.1 1000 "SER1" 7 43200 (secrets.clear 1000)
  · exact c5_cache_staleness.2.2.2 1000 "SER1" 7 43200 (secrets.clear 1000) (by decide)

/-! ## Claim C7 (corrected)

client.go line 124 guards serialization with `req[0] != nil`, a Go
interface comparison: a typed-nil pointer is boxed in a **non-nil**
interface, so for a non-GET method it reaches `json.Marshal`, which
serializes a nil pointer to the four-byte literal `null`.  The claim is
therefore false for typed-nil pointers with non-GET methods; it holds for
the untyped nil, for an absent argument, and for every GET request. -/

/-- Counterexample for C7: a typed-nil pointer with method POST produces
the body `"null"`, not the empty body the claim requires. -/
theorem c7_typed_nil_counterexample :
    serializeReq "POST" (some GoVal.typedNilPtr) = "null" ∧
    (mkReqSign envA "POST" "https://host/v3/x" (some GoVal.typedNilPtr)).Body = "null" ∧
    ("null" : String) ≠ "" := by
  exact ⟨rfl, rfl, by decide⟩

/-- C7 amended: a request whose request-value argument is absent or is the
untyped nil interface, or whose method is GET, produces an empty body;
but a typed-nil pointer with a non-GET method is serialized by
`json.Marshal` to the literal `null`. -/
theorem c7_nil_body_amended :
    (∀ (env : Env) (url : String) (req : Option GoVal),
      (mkReqSign env "GET" url req).Body = "") ∧
    (∀ (env : Env) (method url : String),
      (mkReqSign env method url none).Body = "") ∧
    (∀ (env : Env) (method url : String),
      (mkReqSign env method url (some GoVal.nilIface)).Body = "") ∧
    (∀ (env : Env) (method url : String), method ≠ "GET" →
      (mkReqSign env method url (some GoVal.typedNilPtr)).Body = "null") := by
  refine ⟨?_, ?_, ?_, ?_⟩
  · intro env url req
    cases req with
    | none => rfl
    | some v => simp [mkReqSign, serializeReq]
  · intro env method url
    rfl
  · intro env method url
    simp [mkReqSign, serializeReq]
  · intro env method url h
    simp [mkReqSign, serializeReq, h, jsonMarshal]

/-- Witness for C7's amended claim: the typed-nil/POST conclusion at a
concrete input. -/
theorem c7_nil_body_amended_witness :
    (mkReqSign envA "POST" "https://host/v3/pay" (some GoVal.typedNilPtr)).Body = "null" :=
  c7_nil_body_amended.2.2.2 envA "POST" "https://host/v3/pay" (by decide)

/-! ## Claim C6 -/

/-- C6: for every response with HTTP status at least 300, `Do` reads the
body, JSON-decodes it into an error carrying the HTTP status, the platform
code and the message, and returns that error in the Result carrier; the
trace is exactly send-then-error-branch, so header extraction, certificate
install and signature verification are never reached. -/
theorem c6_http_error_short_circuit :
    ∀ (env : Env) (cache : secrets) (method url : String) (req : Option GoVal)
      (resp : HttpResp) (u : URL) (a : String) (code msg : String),
      parseUrl url = some u →
      clientSignature env (mkReqSign env method url req) = .ok a →
      env.transport method url (serializeReq method req) = some resp →
      300 ≤ resp.status →
      env.decodeErrBody resp.body = some (code, msg) →
      clientDo env cache method url req =
        (cache, errResult (.httpError resp.status code msg),
         [Event.send, Event.httpErrorBranch]) := by
  intro env cache method url req resp u a code msg hu hs htr hst hdec
  have hu' : parseUrl (mkReqSign env method url req).Url = some u := hu
  have htr' : env.transport (mkReqSign env method url req).Method
      (mkReqSign env method url req).Url (mkReqSign env method url req).Body =
      some resp := htr
  have hge : resp.status ≥ 300 := hst
  have hhttp : clientDoHttp env (mkReqSign env method url req) =
      (errResult (.httpError resp.status code msg),
       [Event.send, Event.httpErrorBranch]) := by
    simp [clientDoHttp, hu', hs, htr', hge, hdec]
  simp [clientDo, doPipelineWith, hhttp, errResult]

/-- Witness for C6: the concrete error environment `envB` (status 500,
body decoding to SYSTEMERROR). -/
theorem c6_http_error_short_circuit_witness :
    clientDo envB (secrets.clear envB.now) "GET" "https://host/v3/x" none =
      (secrets.clear envB.now,
       errResult (.httpError 500 "SYSTEMERROR" "system busy"),
       [Event.send, Event.httpErrorBranch]) := by
  exact c6_http_error_short_circuit envB (secrets.clear envB.now) "GET"
    "https://host/v3/x" none respB
    { Scheme := "https", Opaque := "", Host := "host", Path := "/v3/x",
      RawQuery := "", ForceQuery := false, Fragment := "" }
    "WECHATPAY2-SHA256-RSA2048 mchid=\"1601959334\",nonce_str=\"NONCE32\",signature=\"SIGB64\",timestamp=\"1000\",serial_no=\"SN123\""
    "SYSTEMERROR" "system busy" rfl rfl rfl (by decide) rfl

/-! ## Claim C8 (corrected)

client.go lines 206-213 and notify.go lines 64-71 parse the
`Wechatpay-Timestamp` header only when it is nonempty: a **missing**
header leaves the timestamp as 0 and processing continues, so the claim's
"missing" case is false; only a present-but-malformed header (such as
"xxx") fails with the strconv error (*bad-header*). -/

/-- Counterexample for C8: a missing (empty) `Wechatpay-Timestamp` header
does not fail — the header parse yields timestamp 0, the notification
intake succeeds, and the client response path continues with no error. -/
theorem c8_missing_timestamp_counterexample :
    parseTimestampHeader "" = .ok 0 ∧
    notificationIntake "RN" "RS" "" "SER1" "BODY" =
      .ok { Body := "BODY", Timestamp := 0, Nonce := "RN", Signature := "RS",
            SerialNo := "SER1", err := none } ∧
    (clientDoHttp envMissingTs reqSignA).1.err = none := by
  exact ⟨rfl, rfl, rfl⟩

/-- C8 amended: an inbound response or notification whose
`Wechatpay-Timestamp` header is present but is not a decimal signed
64-bit integer (for example "xxx") fails with *bad-header* before
verification (the client trace stops at header extraction); a missing
(empty) header is instead treated as timestamp 0. -/
theorem c8_bad_timestamp_amended :
    (∀ ts : String, ts ≠ "" → parseInt64 ts = none →
      parseTimestampHeader ts = .error .badHeader) ∧
    parseTimestampHeader "xxx" = .error .badHeader ∧
    parseTimestampHeader "" = .ok 0 ∧
    (∀ nonce sig ts serial body : String, ts ≠ "" → parseInt64 ts = none →
      notificationIntake nonce sig ts serial body = .error .badHeader) ∧
    (∀ (env : Env) (r : RequestSignature) (resp : HttpResp) (u : URL) (a : String),
      parseUrl r.Url = some u →
      clientSignature env r = .ok a →
      env.transport r.Method r.Url r.Body = some resp →
      resp.status < 300 →
      resp.tsHeader ≠ "" →
      parseInt64 resp.tsHeader = none →
      clientDoHttp env r = (errResult .badHeader, [Event.send, Event.readHeaders])) := by
  refine ⟨?_, rfl, rfl, ?_, ?_⟩
  · intro ts h1 h2
    simp [parseTimestampHeader, h1, h2]
  · intro nonce sig ts serial body h1 h2
    simp [notificationIntake, parseTimestampHeader, h1, h2]
  · intro env r resp u a hu hs htr hst hne hpi
    have hts : parseTimestampHeader resp.tsHeader = .error .badHeader := by
      simp [parseTimestampHeader, hne, hpi]
    have hge : ¬ (resp.status ≥ 300) := by omega
    simp [clientDoHttp, hu, hs, htr, hge, hts]

/-- Witness for C8's amended claim: the malformed header "xxx" at concrete
inputs on all three paths. -/
theorem c8_bad_timestamp_amended_witness :
    parseTimestampHeader "xxx" = .error .badHeader ∧
    notificationIntake "RN" "RS" "xxx" "SER1" "BODY" = .error .badHeader ∧
    clientDoHttp envBadTs reqSignA =
      (errResult .badHeader, [Event.send, Event.readHeaders]) := by
  refine ⟨c8_bad_timestamp_amended.1 "xxx" (by decide) rfl,
          c8_bad_timestamp_amended.2.2.2.1 "RN" "RS" "xxx" "SER1" "BODY" (by decide) rfl,
          c8_bad_timestamp_amended.2.2.2.2 envBadTs reqSignA respBadTs
            { Scheme := "https", Opaque := "", Host := "host", Path := "/v3/x",
              RawQuery := "", ForceQuery := false, Fragment := "" }
            "WECHATPAY2-SHA256-RSA2048 mchid=\"1601959334\",nonce_str=\"N\",signature=\"SIGB64\",timestamp=\"1000\",serial_no=\"SN123\""
            rfl rfl rfl (by decide) (by decide) rfl⟩
theorem clientDoHttp_trace_events (env : Env) (r : RequestSignature) :
    ∀ e ∈ (clientDoHttp env r).2,
      e = Event.send ∨ e = Event.httpErrorBranch ∨ e = Event.readHeaders := by
  intro e he
  unfold clientDoHttp at he
  repeat' split at he
  all_goals simp_all
  all_goals tauto

theorem doExtraWorkflow_trace_events (env : Env) (r : RequestSignature)
    (cache : secrets) (result : MResult) :
    ∀ e ∈ (doExtraWorkflow env r cache result).2.2,
      ∃ sn, e = Event.installCert sn := by
  intro e he
  unfold doExtraWorkflow getExtraWorkflows at he
  split at he
  · simp only [List.foldl] at he
    unfold upgradeCertWorkflow at he
    split at he
    · simp_all
    · simp only [List.nil_append] at he
      rw [List.mem_map] at he
      obtain ⟨p, _, hp⟩ := he
      exact ⟨p.1, hp.symm⟩
  · simp_all

theorem lookupVerify_trace (env : Env) (c : secrets) (r : MResult) :
    (lookupVerify env c r).2 = [] ∨ (lookupVerify env c r).2 = [Event.verify] := by
  unfold lookupVerify
  repeat' split
  all_goals simp

theorem onceDownload_flag_skip (doCert : secrets → secrets × MResult × List Event)
    (env : Env) (cache : secrets) :
    onceDownloadWith doCert true env cache = (cache, none, []) := rfl

theorem verify_flagged_trace (doCert : secrets → secrets × MResult × List Event)
    (env : Env) (cache : secrets) (result : MResult) :
    (verifySignatureWith doCert true env cache result).2.2 = [] ∨
    (verifySignatureWith doCert true env cache result).2.2 = [Event.verify] :=
  lookupVerify_trace env cache result

theorem noVerify_http_wf (env : Env) (r : RequestSignature) (cache : secrets)
    (result : MResult) :
    ∀ e ∈ (clientDoHttp env r).2 ++ (doExtraWorkflow env r cache result).2.2,
      e ≠ Event.verify := by
  intro e he
  rw [List.mem_append] at he
  rcases he with he | he
  · rcases clientDoHttp_trace_events env r e he with rfl | rfl | rfl <;> simp
  · obtain ⟨sn, rfl⟩ := doExtraWorkflow_trace_events env r cache result e he
    simp

theorem noInstall_append_of_noVerify {a : List Event} (b : List Event)
    (h : ∀ e ∈ a, e ≠ Event.verify) :
    noInstallFromFirstVerify (a ++ b) = noInstallFromFirstVerify b := by
  induction a with
  | nil => rfl
  | cons e rest ih =>
    have he := h e (List.mem_cons_self e rest)
    have hr : ∀ x ∈ rest, x ≠ Event.verify := fun x hx => h x (List.mem_cons_of_mem e hx)
    cases e with
    | send => simpa [noInstallFromFirstVerify] using ih hr
    | httpErrorBranch => simpa [noInstallFromFirstVerify] using ih hr
    | readHeaders => simpa [noInstallFromFirstVerify] using ih hr
    | installCert s => simpa [noInstallFromFirstVerify] using ih hr
    | refreshStart => simpa [noInstallFromFirstVerify] using ih hr
    | verify => exact absurd rfl he

theorem noInstall_of_noVerify (l : List Event) (h : ∀ e ∈ l, e ≠ Event.verify) :
    noInstallFromFirstVerify l = true := by
  have h2 := noInstall_append_of_noVerify (a := l) [] h
  rw [List.append_nil] at h2
  rw [h2]
  rfl

theorem noInstall_small (t t' : List Event)
    (ht : t = [] ∨ t = [Event.verify]) (ht' : t' = [] ∨ t' = [Event.verify]) :
    noInstallFromFirstVerify (t ++ t') = true := by
  rcases ht with rfl | rfl <;> rcases ht' with rfl | rfl <;> rfl

theorem doCertSub_trace_shape (env : Env) (cache : secrets) :
    ∃ a t, (doCertSub env cache).2.2 = a ++ t ∧
      (∀ e ∈ a, e ≠ Event.verify) ∧ (t = [] ∨ t = [Event.verify]) := by
  simp only [doCertSub, doPipelineWith]
  split
  · refine ⟨_, [], (List.append_nil _).symm, ?_, Or.inl rfl⟩
    intro e he
    rcases clientDoHttp_trace_events env _ e he with rfl | rfl | rfl <;> simp
  · split
    · refine ⟨_, [], (List.append_nil _).symm, ?_, Or.inl rfl⟩
      exact noVerify_http_wf env _ _ _
    · refine ⟨_, _, rfl, noVerify_http_wf env _ _ _, ?_⟩
      exact verify_flagged_trace noCertSub env _ _

theorem verify_unflagged_shape (env : Env) (c : secrets) (r : MResult) :
    ∃ a t t', (verifySignatureWith (doCertSub env) false env c r).2.2 = a ++ (t ++ t') ∧
      (∀ e ∈ a, e ≠ Event.verify) ∧
      (t = [] ∨ t = [Event.verify]) ∧ (t' = [] ∨ t' = [Event.verify]) := by
  simp only [verifySignatureWith, onceDownloadWith]
  by_cases hs : secrets.isUpgrade env.now c = true
  · simp only [hs, if_true, Bool.false_eq_true, if_false]
    obtain ⟨sa, st, hsub, hsa, hst⟩ := doCertSub_trace_shape env c
    cases herr : (doCertSub env c).2.1.err with
    | some e0 =>
      refine ⟨Event.refreshStart :: sa, st, [], ?_, ?_, hst, Or.inl rfl⟩
      · simp [herr, hsub, List.append_assoc]
      · intro e he
        rcases List.mem_cons.mp he with rfl | he
        · simp
        · exact hsa e he
    | none =>
      refine ⟨Event.refreshStart :: sa, st, (lookupVerify env (doCertSub env c).1 r).2,
        ?_, ?_, hst, lookupVerify_trace env (doCertSub env c).1 r⟩
      · simp [herr, hsub, List.append_assoc]
      · intro e he
        rcases List.mem_cons.mp he with rfl | he
        · simp
        · exact hsa e he
  · simp only [Bool.not_eq_true] at hs
    simp only [hs, Bool.false_eq_true, if_false]
    refine ⟨[], _, [], ?_, by simp, lookupVerify_trace env c r, Or.inl rfl⟩
    simp

theorem clientDo_install_before_verify (env : Env) (cache : secrets)
    (method url : String) (req : Option GoVal) :
    noInstallFromFirstVerify (clientDo env cache method url req).2.2 = true := by
  simp only [clientDo, doPipelineWith]
  split
  · apply noInstall_of_noVerify
    intro e he
    rcases clientDoHttp_trace_events env _ e he with rfl | rfl | rfl <;> simp
  · split
    · exact noInstall_of_noVerify _ (noVerify_http_wf env _ _ _)
    · obtain ⟨a, t, t', hv, ha, ht, ht'⟩ := verify_unflagged_shape env _ _
      rw [hv, ← List.append_assoc]
      have hA : ∀ e ∈ ((clientDoHttp env (mkReqSign env method url req)).2 ++
          (doExtraWorkflow env (mkReqSign env method url req) cache
            (clientDoHttp env (mkReqSign env method url req)).1).2.2) ++ a,
          e ≠ Event.verify := by
        intro e he
        rcases List.mem_append.mp he with he | he
        · exact noVerify_http_wf env _ _ _ e he
        · exact ha e he
      rw [noInstall_append_of_noVerify (t ++ t') hA]
      exact noInstall_small t t' ht ht'

theorem countRefresh_of_no (l : List Event) (h : ∀ e ∈ l, e ≠ Event.refreshStart) :
    countRefresh l = 0 := by
  rw [countRefresh, List.countP_eq_zero]
  intro e he
  simpa using h e he

theorem countRefresh_http (env : Env) (r : RequestSignature) :
    countRefresh (clientDoHttp env r).2 = 0 := by
  apply countRefresh_of_no
  intro e he
  rcases clientDoHttp_trace_events env r e he with rfl | rfl | rfl <;> simp

theorem countRefresh_wf (env : Env) (r : RequestSignature) (cache : secrets)
    (result : MResult) :
    countRefresh (doExtraWorkflow env r cache result).2.2 = 0 := by
  apply countRefresh_of_no
  intro e he
  obtain ⟨sn, rfl⟩ := doExtraWorkflow_trace_events env r cache result e he
  simp

theorem countRefresh_doCertSub (env : Env) (cache : secrets) :
    countRefresh (doCertSub env cache).2.2 = 0 := by
  simp only [doCertSub, doPipelineWith]
  split
  · exact countRefresh_http env _
  · split
    · rw [countRefresh, List.countP_append, ← countRefresh, ← countRefresh,
          countRefresh_http, countRefresh_wf]
    · rw [countRefresh, List.countP_append, List.countP_append]
      have h1 := countRefresh_http env (mkReqSign env "GET" env.certUrl none)
      have h2 := countRefresh_wf env (mkReqSign env "GET" env.certUrl none) cache
        (clientDoHttp env (mkReqSign env "GET" env.certUrl none)).1
      rw [countRefresh] at h1 h2
      rw [h1, h2]
      rcases verify_flagged_trace noCertSub env _ _ with hv | hv <;> rw [hv] <;> rfl

theorem countRefresh_verify_unflagged (env : Env) (c : secrets) (r : MResult) :
    countRefresh (verifySignatureWith (doCertSub env) false env c r).2.2 ≤ 1 := by
  simp only [verifySignatureWith, onceDownloadWith]
  by_cases hs : secrets.isUpgrade env.now c = true
  · simp only [hs, if_true, Bool.false_eq_true, if_false]
    cases herr : (doCertSub env c).2.1.err with
    | some e0 =>
      simp only [herr]
      have h := countRefresh_doCertSub env c
      simp [countRefresh, List.countP_cons] at h ⊢
      exact h
    | none =>
      simp only [herr]
      have h := countRefresh_doCertSub env c
      rcases lookupVerify_trace env (doCertSub env c).1 r with hl | hl <;>
        simp [countRefresh, List.countP_cons, List.countP_append, hl] at h ⊢ <;>
        exact h
  · simp only [Bool.not_eq_true] at hs
    simp only [hs, Bool.false_eq_true, if_false]
    rcases lookupVerify_trace env c r with hl | hl <;> simp [countRefresh, hl]

theorem countRefresh_clientDo (env : Env) (cache : secrets) (method url : String)
    (req : Option GoVal) :
    countRefresh (clientDo env cache method url req).2.2 ≤ 1 := by
  simp only [clientDo, doPipelineWith]
  split
  · rw [countRefresh_http]
    omega
  · split
    · rw [countRefresh, List.countP_append, ← countRefresh, ← countRefresh,
         countRefresh_http, countRefresh_wf]
      omega
    · rw [countRefresh, List.countP_append, List.countP_append]
      have h1 := countRefresh_http env (mkReqSign env method url req)
      have h2 := countRefresh_wf env (mkReqSign env method url req) cache
        (clientDoHttp env (mkReqSign env method url req)).1
      have h3 := countRefresh_verify_unflagged env
        (doExtraWorkflow env (mkReqSign env method url req) cache
          (clientDoHttp env (mkReqSign env method url req)).1).1
        (clientDoHttp env (mkReqSign env method url req)).1
      rw [countRefresh] at h1 h2 h3
      omega

theorem certFetch_selfverify_aux (env : Env) (req : Option GoVal) (resp : HttpResp)
    (u : URL) (a : String) (serial : String) (pk : Nat) (ts : Int)
    (hu : parseUrl env.certUrl = some u)
    (hs : clientSignature env (mkReqSign env "GET" env.certUrl req) = .ok a)
    (htr : env.transport "GET" env.certUrl (serializeReq "GET" req) = some resp)
    (hst : resp.status < 300)
    (hts : parseTimestampHeader resp.tsHeader = .ok ts)
    (hdec : env.decodeCerts (if resp.status ≠ 204 then resp.body else "") = some [(serial, pk)])
    (hserial : resp.serial = serial)
    (hrt : 0 < env.refreshTime)
    (hver : env.verifyOk pk ts resp.nonce (if resp.status ≠ 204 then resp.body else "")
      resp.signature = true) :
    (clientDo env (secrets.clear env.now) "GET" env.certUrl req).2.1.err = none := by
  simp only [ne_eq, ite_not] at hdec hver
  have hu' : parseUrl (mkReqSign env "GET" env.certUrl req).Url = some u := hu
  have htr' : env.transport (mkReqSign env "GET" env.certUrl req).Method
      (mkReqSign env "GET" env.certUrl req).Url
      (mkReqSign env "GET" env.certUrl req).Body = some resp := htr
  have hge : ¬ (resp.status ≥ 300) := by omega
  have hhttp : clientDoHttp env (mkReqSign env "GET" env.certUrl req) =
      ({ Body := if resp.status = 204 then "" else resp.body, Timestamp := ts,
         Nonce := resp.nonce, Signature := resp.signature, SerialNo := resp.serial,
         err := none }, [Event.send, Event.readHeaders]) := by
    simp [clientDoHttp, hu', hs, htr', hge, hts]
  have hwf : doExtraWorkflow env (mkReqSign env "GET" env.certUrl req)
      (secrets.clear env.now)
      ({ Body := if resp.status = 204 then "" else resp.body, Timestamp := ts,
         Nonce := resp.nonce, Signature := resp.signature, SerialNo := resp.serial,
         err := none } : MResult) =
      (secrets.add env.now serial pk env.refreshTime (secrets.clear env.now), none,
       [Event.installCert serial]) := by
    simp [doExtraWorkflow, getExtraWorkflows, upgradeCertWorkflow, mkReqSign, hdec]
  have hkey : secrets.get
      (secrets.add env.now serial pk env.refreshTime (secrets.clear env.now))
      resp.serial = some pk := by
    simp [secrets.get, secrets.add, secrets.clear, hserial]
  have hstale : secrets.isUpgrade env.now
      (secrets.add env.now serial pk env.refreshTime (secrets.clear env.now)) = false := by
    unfold secrets.isUpgrade secrets.add
    have h : ¬ (env.now + env.refreshTime < env.now) := by omega
    simp [h]
  simp only [clientDo, doPipelineWith, hhttp]
  simp only [hwf]
  simp [verifySignatureWith, onceDownloadWith, hstale, lookupVerify, hkey, hver]

/-! ## Claim C3 -/

/-- C3: within a single `Do` call the certificate-install extra workflow
is selected iff the method is GET and the url is exactly (string equality)
the configured cert-fetch url; in every `Do` trace certificate installs
happen strictly before signature verification is attempted; and a
certificate-fetch call starting from an **empty** cache verifies
successfully whenever the key the response itself delivered verifies it —
i.e. the response is verified against the keys it installed. -/
theorem c3_cert_workflow :
    (∀ (env : Env) (r : RequestSignature),
      getExtraWorkflows env r = [Workflow.cert] ↔
        (r.Method = "GET" ∧ r.Url = env.certUrl)) ∧
    (∀ (env : Env) (r : RequestSignature),
      ¬ (r.Method = "GET" ∧ r.Url = env.certUrl) → getExtraWorkflows env r = []) ∧
    (∀ (env : Env) (cache : secrets) (method url : String) (req : Option GoVal),
      noInstallFromFirstVerify (clientDo env cache method url req).2.2 = true) ∧
    (∀ (env : Env) (req : Option GoVal) (resp : HttpResp) (u : URL) (a : String)
       (serial : String) (pk : Nat) (ts : Int),
      parseUrl env.certUrl = some u →
      clientSignature env (mkReqSign env "GET" env.certUrl req) = .ok a →
      env.transport "GET" env.certUrl (serializeReq "GET" req) = some resp →
      resp.status < 300 →
      parseTimestampHeader resp.tsHeader = .ok ts →
      env.decodeCerts (if resp.status ≠ 204 then resp.body else "") = some [(serial, pk)] →
      resp.serial = serial →
      0 < env.refreshTime →
      env.verifyOk pk ts resp.nonce (if resp.status ≠ 204 then resp.body else "")
        resp.signature = true →
      (clientDo env (secrets.clear env.now) "GET" env.certUrl req).2.1.err = none) := by
  refine ⟨?_, ?_, clientDo_install_before_verify, certFetch_selfverify_aux⟩
  · intro env r
    unfold getExtraWorkflows
    by_cases h : r.Method = "GET" ∧ r.Url = env.certUrl
    · simp [h]
    · simp [h]
  · intro env r h
    unfold getExtraWorkflows
    simp [h]

/-- Witness for C3: in the concrete environment `envA`, a cert-fetch `Do`
starting from the empty cache succeeds — the delivered key verifies its
own response. -/
theorem c3_cert_workflow_witness :
    (clientDo envA (secrets.clear envA.now) "GET" envA.certUrl none).2.1.err = none :=
  c3_cert_workflow.2.2.2 envA none respA
    { Scheme := "https", Opaque := "", Host := "api.mch.weixin.qq.com",
      Path := "/v3/certificates", RawQuery := "", ForceQuery := false,
      Fragment := "" }
    "WECHATPAY2-SHA256-RSA2048 mchid=\"1601959334\",nonce_str=\"NONCE32\",signature=\"SIGB64\",timestamp=\"1000\",serial_no=\"SN123\""
    "SER1" 7 1611368330 rfl rfl rfl (by decide) rfl rfl rfl (by decide) rfl

/-! ## Claim C4 -/

/-- C4: the stale-check-and-refresh runs at most once per logical request:
a context already carrying the sentinel skips the whole
stale-check-and-refresh (conjunct one), the cert-fetch sub-call (whose
context carries the sentinel) performs no refresh at all (conjunct two),
and every verification call and every `Do` call performs at most one
refresh, for every environment and cache state. -/
theorem c4_refresh_guard :
    (∀ (doCert : secrets → secrets × MResult × List Event) (env : Env) (cache : secrets),
      onceDownloadWith doCert true env cache = (cache, none, [])) ∧
    (∀ (env : Env) (cache : secrets), countRefresh (doCertSub env cache).2.2 = 0) ∧
    (∀ (env : Env) (cache : secrets) (result : MResult),
      countRefresh (clientVerifySignature env cache result).2.2 ≤ 1) ∧
    (∀ (env : Env) (cache : secrets) (method url : String) (req : Option GoVal),
      countRefresh (clientDo env cache method url req).2.2 ≤ 1) := by
  refine ⟨fun d env c => rfl, countRefresh_doCertSub, ?_, countRefresh_clientDo⟩
  intro env cache result
  exact countRefresh_verify_unflagged env cache result

example : parseFloat "\x600.00000" = some 0 := rfl
example : parseFloat "\x600.00" = some 0 := rfl

theorem tradeBillLoop_canonical (sh sl : String) (s : TradeBillSummary)
    (hsh : (splitComma sh).length = 7)
    (hsl7 : (splitComma sl).length = 7)
    (hsl : UnmarshalTradeBillSummary (splitComma sl) = some s) :
    ∀ (ds : List String) (acc : TradeBillResponse),
      (∀ d ∈ ds, (splitComma d).length ≠ 7) →
      (∀ d ∈ ds, (UnmarshalAllTradeBill (splitComma d)).isSome) →
      tradeBillLoop AllBill true acc (ds ++ [sh, sl]) =
        some { Summary := s, Refund := acc.Refund,
               All := acc.All ++ ds.filterMap (fun d => UnmarshalAllTradeBill (splitComma d)),
               Success := acc.Success } := by
  intro ds
  induction ds with
  | nil =>
    intro acc h7 hsome
    simp [tradeBillLoop, hsh, hsl7, hsl]
  | cons d ds ih =>
    intro acc h7 hsome
    have hd7 := h7 d (List.mem_cons_self d ds)
    have hds7 : ∀ x ∈ ds, (splitComma x).length ≠ 7 :=
      fun x hx => h7 x (List.mem_cons_of_mem d hx)
    have hdsome := hsome d (List.mem_cons_self d ds)
    have hdssome : ∀ x ∈ ds, (UnmarshalAllTradeBill (splitComma x)).isSome :=
      fun x hx => hsome x (List.mem_cons_of_mem d hx)
    obtain ⟨b, hb⟩ := Option.isSome_iff_exists.mp hdsome
    rw [List.cons_append]
    rw [show tradeBillLoop AllBill true acc (d :: (ds ++ [sh, sl])) =
        tradeBillLoop AllBill true { acc with All := acc.All ++ [b] } (ds ++ [sh, sl]) from by
      simp [tradeBillLoop, hd7, hb]]
    rw [ih { acc with All := acc.All ++ [b] } hds7 hdssome]
    simp [List.filterMap_cons, hb, List.append_assoc]

/-! ## Claim C9 -/

/-- C9: decoding an ALL-type trade bill in the canonical format skips the
first row and the summary-header row (the first 7-field row while `first`
is true), identifies the summary row by its exact field count of 7, strips
one leading back-tick from each field, and fails whenever a numeric field
fails to parse (stated as: a successfully decoded record/summary has all
its numeric fields parsed, a row of the wrong width fails, and the
concrete corrupted sample fails); on the canonical 3-row sample it
produces exactly three records and a summary with
`TotalNumberOfTransactions = 3` and `TotalSettlementFee = 0.03`. -/
theorem c9_bill_decode :
    (∀ (data hd0 sh sl : String) (ds : List String) (s : TradeBillSummary),
      data ≠ "" →
      scanLines data = hd0 :: (ds ++ [sh, sl]) →
      (∀ d ∈ ds, (splitComma d).length ≠ 7) →
      (∀ d ∈ ds, (UnmarshalAllTradeBill (splitComma d)).isSome) →
      (splitComma sh).length = 7 →
      (splitComma sl).length = 7 →
      UnmarshalTradeBillSummary (splitComma sl) = some s →
      UnmarshalTradeBillResponse AllBill data =
        some { Summary := s, Refund := [],
               All := ds.filterMap (fun d => UnmarshalAllTradeBill (splitComma d)),
               Success := [] }) ∧
    (∀ str : String, removeDot (String.mk (backtickChar :: str.data)) = str) ∧
    (∀ (c : Char) (rest : List Char), c ≠ backtickChar →
      removeDot (String.mk (c :: rest)) = String.mk (c :: rest)) ∧
    (∀ (v0 v1 v2 v3 v4 v5 v6 v7 v8 v9 v10 v11 v12 v13 v14 v15 v16 v17 v18 v19
        v20 v21 v22 v23 v24 v25 v26 : String) (b : AllTradeBill),
      UnmarshalAllTradeBill [v0, v1, v2, v3, v4, v5, v6, v7, v8, v9, v10, v11,
        v12, v13, v14, v15, v16, v17, v18, v19, v20, v21, v22, v23, v24, v25,
        v26] = some b →
      (parseFloat v12).isSome ∧ (parseFloat v13).isSome ∧
      (parseFloat v16).isSome ∧ (parseFloat v17).isSome ∧
      (parseFloat v22).isSome ∧ (parseFloat v24).isSome ∧
      (parseFloat v25).isSome) ∧
    (∀ (v0 v1 v2 v3 v4 v5 v6 : String) (s : TradeBillSummary),
      UnmarshalTradeBillSummary [v0, v1, v2, v3, v4, v5, v6] = some s →
      (atoi v0).isSome ∧ (parseFloat v1).isSome ∧ (parseFloat v2).isSome ∧
      (parseFloat v3).isSome ∧ (parseFloat v4).isSome ∧ (parseFloat v5).isSome ∧
      (parseFloat v6).isSome) ∧
    (∀ vs : List String, vs.length ≠ 27 → UnmarshalAllTradeBill vs = none) ∧
    (UnmarshalTradeBillResponse AllBill canonicalAllBill).map
      (fun r => (r.All.length, r.Refund.length, r.Success.length,
                 r.Summary.TotalNumberOfTransactions,
                 r.Summary.TotalSettlementFee)) =
      some (3, 0, 0, 3, mkRat 3 100) ∧
    UnmarshalTradeBillResponse AllBill canonicalAllBillBadNumeric = none := by
  refine ⟨?_, ?_, ?_, ?_, ?_, ?_, rfl, rfl⟩
  · intro data hd0 sh sl ds s hne hscan h7 hsome hsh hsl7 hsl
    have hm : UnmarshalTradeBillResponse AllBill data =
        tradeBillLoop AllBill true emptyTradeBillResponse (ds ++ [sh, sl]) := by
      unfold UnmarshalTradeBillResponse
      rw [if_neg hne, hscan]
    rw [hm, tradeBillLoop_canonical sh sl s hsh hsl7 hsl ds emptyTradeBillResponse h7 hsome]
    simp [emptyTradeBillResponse]
  · intro str
    cases str with
    | mk d => simp [removeDot]
  · intro c rest hc
    simp [removeDot, hc]
  · intro v0 v1 v2 v3 v4 v5 v6 v7 v8 v9 v10 v11 v12 v13 v14 v15 v16 v17 v18 v19
      v20 v21 v22 v23 v24 v25 v26 b h
    simp only [UnmarshalAllTradeBill] at h
    split at h
    · next f12 f13 f16 f17 f22 f24 f25 h12 h13 h16 h17 h22 h24 h25 =>
      simp [h12, h13, h16, h17, h22, h24, h25]
    · simp_all
  · intro v0 v1 v2 v3 v4 v5 v6 s h
    simp only [UnmarshalTradeBillSummary] at h
    split at h
    · next i0 f1 f2 f3 f4 f5 f6 h0 h1 h2 h3 h4 h5 h6 =>
      simp [h0, h1, h2, h3, h4, h5, h6]
    · simp_all
  · intro vs hlen
    unfold UnmarshalAllTradeBill
    split
    · simp at hlen
    · rfl

/-- Witness for C9: the general canonical-format conclusion applied to the
canonical 3-row ALL sample. -/

theorem c9_bill_decode_witness :
    UnmarshalTradeBillResponse AllBill canonicalAllBill =
      some { Summary := { TotalNumberOfTransactions := 3,
                          TotalSettlementFee := mkRat 3 100,
                          TotalRefundFee := 0, TotalCouponFee := 0,
                          TotalCommissionFee := 0,
                          TotalApplyRefundFee := mkRat 3 100, TotalAmount := 0 },
             Refund := [],
             All := [canonicalDataRow1, canonicalDataRow2, canonicalDataRow3].filterMap
               (fun d => UnmarshalAllTradeBill (splitComma d)),
             Success := [] } :=
  c9_bill_decode.1 canonicalAllBill canonicalTitleRow canonicalSummaryHeaderRow
    canonicalSummaryRow [canonicalDataRow1, canonicalDataRow2, canonicalDataRow3]
    { TotalNumberOfTransactions := 3, TotalSettlementFee := mkRat 3 100,
      TotalRefundFee := 0, TotalCouponFee := 0, TotalCommissionFee := 0,
      TotalApplyRefundFee := mkRat 3 100, TotalAmount := 0 }
    (by decide) rfl (by decide) (by decide) rfl rfl rfl

theorem string_data_append (a b : String) : (a ++ b).data = a.data ++ b.data := by
  cases a
  cases b
  rfl

theorem jstrBody_of_clean (l : List Char)
    (h : ∀ c ∈ l, c ≠ quoteChar ∧ c ≠ backslashChar ∧ 0x20 ≤ c.val) :
    JStrBody l := by
  induction l with
  | nil => exact JStrBody.nil
  | cons c rest ih =>
    have hc := h c (List.mem_cons_self c rest)
    have hr : ∀ x ∈ rest, x ≠ quoteChar ∧ x ≠ backslashChar ∧ 0x20 ≤ x.val :=
      fun x hx => h x (List.mem_cons_of_mem c hx)
    exact JStrBody.cons (JStrChar.unescaped c hc.1 hc.2.1 hc.2.2) (ih hr)

theorem answerJson_sufficient_aux (code message : String)
    (hc : ∀ c ∈ code.data, c ≠ quoteChar ∧ c ≠ backslashChar ∧ 0x20 ≤ c.val)
    (hm : ∀ c ∈ message.data, c ≠ quoteChar ∧ c ≠ backslashChar ∧ 0x20 ≤ c.val) :
    JsonObjectText (NotificationAnswer.Str { Code := code, Message := message }).data := by
  cases code with
  | mk cl =>
    cases message with
    | mk ml =>
      have hk1 : JStrBody ['c', 'o', 'd', 'e'] := jstrBody_of_clean _ (by decide)
      have hk2 : JStrBody ['m', 'e', 's', 's', 'a', 'g', 'e'] := jstrBody_of_clean _ (by decide)
      have hv1 : JStrBody cl := jstrBody_of_clean cl hc
      have hv2 : JStrBody ml := jstrBody_of_clean ml hm
      have hobj := JsonObjectText.obj (JMembers.more hk1 hv1 (JMembers.one hk2 hv2))
      have hd1 : ("\x7b\"code\":\"" : String).data =
          [lbraceChar, quoteChar, 'c', 'o', 'd', 'e', quoteChar, ':', quoteChar] := by decide
      have hd2 : ("\",\"message\":\"" : String).data =
          [quoteChar, ',', quoteChar, 'm', 'e', 's', 's', 'a', 'g', 'e', quoteChar, ':', quoteChar] := by decide
      have hd3 : ("\"\x7d" : String).data = [quoteChar, rbraceChar] := by decide
      have heq : (NotificationAnswer.Str { Code := ⟨cl⟩, Message := ⟨ml⟩ }).data =
          lbraceChar :: (quoteChar :: ['c', 'o', 'd', 'e'] ++ [quoteChar, ':', quoteChar] ++
            cl ++ [quoteChar, ','] ++ (quoteChar :: ['m', 'e', 's', 's', 'a', 'g', 'e'] ++
              [quoteChar, ':', quoteChar] ++ ml ++ [quoteChar])) ++ [rbraceChar] := by
        simp only [NotificationAnswer.Str, string_data_append, hd1, hd2, hd3]
        simp [List.append_assoc]
        all_goals decide
      rw [heq]
      exact hobj

/-! ## Claim C10 (corrected)

`NotificationAnswer.String` splices the field values into the JSON
template verbatim with no escaping, and empty fields give the empty
object; both are confirmed below.  The claim's "valid JSON **only when**
neither field contains a double-quote, backslash, or control character"
is however false: a field can itself contain a well-formed JSON escape —
for the two-character code `\"` the output is `{"code":"\"","message":""}`,
a valid JSON text, although the field contains both a backslash and a
double-quote.  What holds is the converse direction: clean fields always
give a valid JSON text. -/

/-- Counterexample for C10: the two-character field `\"` contains a
backslash and a double-quote, yet the answer built from it is a valid
JSON object text. -/
theorem c10_escaping_counterexample :
    NotificationAnswer.Str { Code := "\\\"", Message := "" } =
      "\x7b\"code\":\"\\\"\",\"message\":\"\"\x7d" ∧
    backslashChar ∈ ("\\\"" : String).data ∧
    quoteChar ∈ ("\\\"" : String).data ∧
    JsonObjectText ("\x7b\"code\":\"\\\"\",\"message\":\"\"\x7d" : String).data := by
  refine ⟨rfl, by decide, by decide, ?_⟩
  have hk1 : JStrBody ['c', 'o', 'd', 'e'] := jstrBody_of_clean _ (by decide)
  have hk2 : JStrBody ['m', 'e', 's', 's', 'a', 'g', 'e'] := jstrBody_of_clean _ (by decide)
  have hv1 : JStrBody [backslashChar, quoteChar] :=
    JStrBody.cons (JStrChar.esc quoteChar (Or.inl rfl)) JStrBody.nil
  have hobj := JsonObjectText.obj (JMembers.more hk1 hv1 (JMembers.one hk2 JStrBody.nil))
  have heq : lbraceChar :: (quoteChar :: ['c', 'o', 'd', 'e'] ++ [quoteChar, ':', quoteChar] ++
      [backslashChar, quoteChar] ++ [quoteChar, ','] ++
      (quoteChar :: ['m', 'e', 's', 's', 'a', 'g', 'e'] ++ [quoteChar, ':', quoteChar] ++
        ([] : List Char) ++ [quoteChar])) ++ [rbraceChar] =
      ("\x7b\"code\":\"\\\"\",\"message\":\"\"\x7d" : String).data := by decide
  rw [← heq]
  exact hobj

/-- C10 amended: `NotificationAnswer.String`/`Bytes` return exactly the
concatenation with the field values inserted verbatim and no JSON
escaping; empty fields produce the empty-fields object; and the output is
a valid JSON object text **whenever** neither field contains a
double-quote, backslash, or control character (it may coincidentally be
valid JSON even when a field does). -/
theorem c10_answer_format :
    (∀ code message : String,
      NotificationAnswer.Str { Code := code, Message := message } =
        "\x7b\"code\":\"" ++ code ++ "\",\"message\":\"" ++ message ++ "\"\x7d") ∧
    (∀ a : NotificationAnswer, NotificationAnswer.Bytes a = a.Str.data) ∧
    NotificationAnswer.Str { Code := "", Message := "" } =
      "\x7b\"code\":\"\",\"message\":\"\"\x7d" ∧
    (∀ code message : String,
      (∀ c ∈ code.data, c ≠ quoteChar ∧ c ≠ backslashChar ∧ 0x20 ≤ c.val) →
      (∀ c ∈ message.data, c ≠ quoteChar ∧ c ≠ backslashChar ∧ 0x20 ≤ c.val) →
      JsonObjectText (NotificationAnswer.Str { Code := code, Message := message }).data) := by
  exact ⟨fun code message => rfl, fun a => rfl, rfl, answerJson_sufficient_aux⟩

/-- Witness for C10's amended claim: clean concrete fields give a valid
JSON object text. -/
theorem c10_answer_format_witness :
    JsonObjectText (NotificationAnswer.Str { Code := "OK", Message := "success" }).data :=
  c10_answer_format.2.2.2 "OK" "success" (by decide) (by decide)
